import Mathlib

/-!
Dependency-PANDA: the plugins `dependency_network` and `dependency_tracker`.

A shallow embedding of the two PANDA plugins of the repository,
`src/dependency_network/dependency_network.cpp` and
`src/dependency_tracker/dependency_tracker.cpp`, and theorems about them.

Conventions of the embedding.

* Every callback runs to completion before the next one starts, so a handler is
  a function from the plugin state to the plugin state.
* What a handler asks of the instrumentation host while it runs
  (`panda_current_asid`, `rr_get_guest_instr_count`, `panda_virt_to_phys`, the
  words and the `sockaddr` it reads from guest memory) is an input of the
  handler.
* The taint engine (`taint2`) is an external collaborator.  It is modelled by its
  enabled flag and a shadow memory that maps a physical address to a label set.
* `target_ulong` is 32 bits wide (the plugins only load for i386 targets):
  `vAddr + i` is taken modulo `2 ^ 32`.  `hwaddr` is 64 bits wide.
* Loop counters and byte counters (`int` in the source) are natural numbers.
* The plugin runs on a little-endian host: `read_u16_le` is how it reads the two
  bytes of an `unsigned short` such as `sin_port`.
* The host's instruction count is an integer.  `int instr =
  rr_get_guest_instr_count()` keeps it modulo `2 ^ 32` as a two's complement
  number (`to_int`).  The field `enableTaintAt` is declared in the `*_def.h`
  headers, which are not part of the sources: it is an integer here, and the
  conversion of the count that a connect handler stores into it is not modelled.
-/

set_option autoImplicit false

namespace DependencyPanda

/-! ## The instrumentation host and the taint engine -/

/-- Value `(hwaddr)(-1)`, by which `panda_virt_to_phys` reports that a virtual
address has no physical frame. -/
def HWADDR_INVALID : Nat := 2 ^ 64 - 1

/-- Sum `vAddr + i` of a `target_ulong` and a loop counter, in `target_ulong`
arithmetic. -/
def vaddr_add (vAddr i : Nat) : Nat := (vAddr + i) % 2 ^ 32

/-- Address family of IPv4 socket addresses (`<sys/socket.h>`). -/
def AF_INET : Nat := 2

/-- Address family of IPv6 socket addresses (`<sys/socket.h>`). -/
def AF_INET6 : Nat := 10

/-- Call number of `connect` in `<linux/net.h>`. -/
def SYS_CONNECT : Int := 3

/-- Call number of `send` in `<linux/net.h>`. -/
def SYS_SEND : Int := 9

/-- Call number of `recv` in `<linux/net.h>`. -/
def SYS_RECV : Int := 10

/-- Call number of `sendto` in `<linux/net.h>`. -/
def SYS_SENDTO : Int := 11

/-- Call number of `recvfrom` in `<linux/net.h>`. -/
def SYS_RECVFROM : Int := 12

/-- What the host reports while one callback runs: `asid` is
`panda_current_asid(cpu)`, `instr_count` is `rr_get_guest_instr_count()`,
`virt_to_phys v` is `panda_virt_to_phys(cpu, v)`. -/
structure CPUState where
  asid : Nat
  instr_count : Int
  virt_to_phys : Nat → Nat

/-- Value of an `int` that is assigned the host's 64-bit instruction count, as in
`int instr = rr_get_guest_instr_count()`: the count modulo `2 ^ 32`, read as a
two's complement number of 32 bits. -/
def to_int (count : Int) : Int := (count + 2 ^ 31) % 2 ^ 32 - 2 ^ 31

/-- The `sockaddr` a connect handler reads from guest memory, as the handler sees
it: `sa_family`, the field `sin_port` (`sin6_port` for IPv6) as the host reads
it, and the text that `inet_ntop` writes into `ipAddress`. The handlers copy
`sizeof(sockaddr)`, 16 bytes: for IPv4 the text is that of the address of the
connection; for IPv6 `inet_ntop` reads `sin6_addr` at bytes 8 to 23, of which
only the first eight were copied, so the text is whatever it reads there. -/
structure sockaddr where
  sa_family : Nat
  sin_port : Nat
  ntop : String

/-- Value that a little-endian host reads from the two bytes of an
`unsigned short`, `b0` at the lower address. -/
def read_u16_le (b0 b1 : Nat) : Nat := b0 + 256 * b1

/-- The two bytes of port number `P` in network byte order, the byte at the
lower address first. -/
def port_bytes (P : Nat) : Nat × Nat := (P / 256 % 256, P % 256)

/-- The IPv4 socket address that `connect` is given for address text `ip` and
port number `P`, as a little-endian host reads its fields. -/
def sockaddr_in (ip : String) (P : Nat) : sockaddr :=
  { sa_family := AF_INET
    sin_port := read_u16_le (port_bytes P).1 (port_bytes P).2
    ntop := ip }

/-- State of the taint engine: the enabled flag, the number of calls of
`taint2_enable_taint` so far, and the shadow memory (physical address to label
set). -/
structure Taint2 where
  enabled : Bool
  enable_calls : Nat
  ram : Nat → Finset Nat

/-- Engine call `taint2_enabled()`. -/
def taint2_enabled (t : Taint2) : Bool := t.enabled

/-- Engine call `taint2_enable_taint()`: the engine is enabled from then on. -/
def taint2_enable_taint (t : Taint2) : Taint2 :=
  { t with enabled := true, enable_calls := t.enable_calls + 1 }

/-- Engine call `taint2_label_ram(pAddr, label)`: adds `label` to the label set
at `pAddr`. -/
def taint2_label_ram (t : Taint2) (pAddr label : Nat) : Taint2 :=
  { t with ram := Function.update t.ram pAddr (insert label (t.ram pAddr)) }

/-- Engine call `taint2_query_ram(pAddr)`: the cardinality of the label set at
`pAddr`. -/
def taint2_query_ram (t : Taint2) (pAddr : Nat) : Nat := (t.ram pAddr).card

/-- Engine call `taint2_query_set_ram(pAddr)`: the label set at `pAddr`. -/
def taint2_query_set_ram (t : Taint2) (pAddr : Nat) : Finset Nat := t.ram pAddr

/-! ## `dependency_network` -/

namespace dependency_network

/-- An IP address and a port. -/
structure Dependency_Network_Target where
  ip : String
  port : Nat
  deriving DecidableEq

/-- Member `Dependency_Network_Target::operator==`. -/
def Dependency_Network_Target.eq (a rhs : Dependency_Network_Target) : Bool :=
  (a.ip == rhs.ip) && (a.port == rhs.port)

/-- Member `Dependency_Network_Target::operator!=`. -/
def Dependency_Network_Target.ne (a rhs : Dependency_Network_Target) : Bool :=
  (a.ip != rhs.ip) || (a.port != rhs.port)

/-- The global `dependency_network`: the configured source and sink, the debug
flag and the instruction count after which taint is enabled. -/
structure Dependency_Network where
  source : Dependency_Network_Target
  sink : Dependency_Network_Target
  debug : Bool
  enableTaintAt : Int

/-- The plugin's globals and the taint engine. `targets` maps (asid, fd) to
the target of the last `connect` on that key. -/
structure State where
  dependency_network : Dependency_Network
  targets : Nat × Nat → Option Dependency_Network_Target
  sawReadOfSource : Bool
  sawWriteOfSink : Bool
  dependency : Bool
  taint2 : Taint2

/-- Function `labelBufferContents(cpu, vAddr, length)`: the loop state is
(`bytesTainted`, engine). -/
def labelBufferContents (cpu : CPUState) (vAddr length : Nat) (t : Taint2) : Taint2 :=
  if !taint2_enabled t then t
  else
    ((List.range length).foldl
      (fun (acc : Nat × Taint2) (i : Nat) =>
        let pAddr := cpu.virt_to_phys (vaddr_add vAddr i)
        if pAddr = HWADDR_INVALID then acc
        else (acc.1 + 1, taint2_label_ram acc.2 pAddr 1))
      (0, t)).2

/-- Function `queryBufferContents(cpu, vAddr, length)`: `-1` when taint is off,
else the number of bytes whose label set is not empty. -/
def queryBufferContents (cpu : CPUState) (vAddr length : Nat) (t : Taint2) : Int :=
  if !taint2_enabled t then -1
  else
    (((List.range length).foldl
      (fun (bytesWithTaint : Nat) (i : Nat) =>
        let pAddr := cpu.virt_to_phys (vaddr_add vAddr i)
        if pAddr = HWADDR_INVALID then bytesWithTaint
        else
          let cardinality := taint2_query_ram t pAddr
          if cardinality > 0 then bytesWithTaint + 1 else bytesWithTaint)
      0 : Nat) : Int)

/-- Callback `on_before_block_translate`. -/
def on_before_block_translate (cpu : CPUState) (s : State) : State :=
  let instr := to_int cpu.instr_count
  if taint2_enabled s.taint2 = false ∧ instr > s.dependency_network.enableTaintAt then
    { s with taint2 := taint2_enable_taint s.taint2 }
  else s

/-- Callback `on_pread64_return`. -/
def on_pread64_return (cpu : CPUState) (fd buffer count : Nat) (s : State) : State :=
  match s.targets (cpu.asid, fd) with
  | none => s
  | some target =>
    if target.eq s.dependency_network.source then
      { s with
        sawReadOfSource := true
        taint2 := labelBufferContents cpu buffer count s.taint2 }
    else s

/-- Callback `on_pwrite64_return`. -/
def on_pwrite64_return (cpu : CPUState) (fd buffer count : Nat) (s : State) : State :=
  match s.targets (cpu.asid, fd) with
  | none => s
  | some target =>
    if target.eq s.dependency_network.sink then
      let numTainted := queryBufferContents cpu buffer count s.taint2
      { s with
        sawWriteOfSink := true
        dependency := if numTainted > 0 then true else s.dependency }
    else s

/-- Callback `on_read_return`. -/
def on_read_return (cpu : CPUState) (fd buffer count : Nat) (s : State) : State :=
  on_pread64_return cpu fd buffer count s

/-- Callback `on_write_return`. -/
def on_write_return (cpu : CPUState) (fd buffer count : Nat) (s : State) : State :=
  on_pwrite64_return cpu fd buffer count s

/-- Handler `on_socketcall_connect_return`. `arguments` are the three words read
at `args`, `addr` is the `sockaddr` read at `arguments[1]`. -/
def on_socketcall_connect_return (cpu : CPUState) (arguments : Nat → Nat)
    (addr : sockaddr) (s : State) : State :=
  if addr.sa_family = AF_INET ∨ addr.sa_family = AF_INET6 then
    let port := addr.sin_port
    let sockfd := arguments 0
    let target : Dependency_Network_Target := { ip := addr.ntop, port := port }
    let s1 := { s with targets := Function.update s.targets (cpu.asid, sockfd) (some target) }
    if target.eq s1.dependency_network.source then
      { s1 with dependency_network :=
          { s1.dependency_network with enableTaintAt := cpu.instr_count } }
    else if target.eq s1.dependency_network.sink then
      { s1 with dependency_network :=
          { s1.dependency_network with enableTaintAt := cpu.instr_count } }
    else s1
  else s

/-- Handler `on_socketcall_recv_return`. `arguments` are the four words read at
`args`. -/
def on_socketcall_recv_return (cpu : CPUState) (arguments : Nat → Nat) (s : State) : State :=
  let sockfd := arguments 0
  let buffer := arguments 1
  let length := arguments 2
  match s.targets (cpu.asid, sockfd) with
  | none => s
  | some target =>
    if target.eq s.dependency_network.source then
      { s with
        sawReadOfSource := true
        taint2 := labelBufferContents cpu buffer length s.taint2 }
    else s

/-- Handler `on_socketcall_send_return`. `arguments` are the four words read at
`args`. -/
def on_socketcall_send_return (cpu : CPUState) (arguments : Nat → Nat) (s : State) : State :=
  let sockfd := arguments 0
  let buffer := arguments 1
  let length := arguments 2
  match s.targets (cpu.asid, sockfd) with
  | none => s
  | some target =>
    if target.eq s.dependency_network.sink then
      let numTainted := queryBufferContents cpu buffer length s.taint2
      { s with
        sawWriteOfSink := true
        dependency := if numTainted > 0 then true else s.dependency }
    else s

/-- Callback `on_socketcall_return`: the switch on the call number. -/
def on_socketcall_return (cpu : CPUState) (call : Int) (arguments : Nat → Nat)
    (addr : sockaddr) (s : State) : State :=
  if call = SYS_CONNECT then on_socketcall_connect_return cpu arguments addr s
  else if call = SYS_SEND ∨ call = SYS_SENDTO then on_socketcall_send_return cpu arguments s
  else if call = SYS_RECV ∨ call = SYS_RECVFROM then on_socketcall_recv_return cpu arguments s
  else s

/-- The callbacks that `init_plugin` registers, each with its arguments. -/
inductive Event where
  | before_block_translate
  | sys_socketcall_return (call : Int) (arguments : Nat → Nat) (addr : sockaddr)
  | sys_pread64_return (fd buffer count : Nat)
  | sys_pwrite64_return (fd buffer count : Nat)
  | sys_read_return (fd buffer count : Nat)
  | sys_write_return (fd buffer count : Nat)

/-- One callback, delivered with the host's report `cpu`. -/
def step (s : State) (ev : CPUState × Event) : State :=
  match ev.2 with
  | .before_block_translate => on_before_block_translate ev.1 s
  | .sys_socketcall_return call arguments addr => on_socketcall_return ev.1 call arguments addr s
  | .sys_pread64_return fd buffer count => on_pread64_return ev.1 fd buffer count s
  | .sys_pwrite64_return fd buffer count => on_pwrite64_return ev.1 fd buffer count s
  | .sys_read_return fd buffer count => on_read_return ev.1 fd buffer count s
  | .sys_write_return fd buffer count => on_write_return ev.1 fd buffer count s

/-- A sequence of callbacks, delivered one after the other. -/
def run (s : State) (evs : List (CPUState × Event)) : State := evs.foldl step s

/-- The summary that `uninit_plugin` prints: saw read of source, saw write of
sink, saw dependency. -/
def uninit_plugin (s : State) : Bool × Bool × Bool :=
  (s.sawReadOfSource, s.sawWriteOfSink, s.dependency)

/-- State after the first `i` callbacks of `evs`. -/
def stateAt (s : State) (evs : List (CPUState × Event)) (i : Nat) : State :=
  run s (evs.take i)

/-- Whether the callback is an `on_before_block_translate` whose instruction
count is strictly greater than `enableTaintAt` in state `s`. -/
def exceeds (s : State) (ev : CPUState × Event) : Bool :=
  match ev.2 with
  | .before_block_translate => decide (ev.1.instr_count > s.dependency_network.enableTaintAt)
  | _ => false

/-- Whether the callback is an `on_before_block_translate` at which the local
`int instr`, the instruction count kept in 32 bits, is strictly greater than
`enableTaintAt` in state `s`. -/
def fires (s : State) (ev : CPUState × Event) : Bool :=
  match ev.2 with
  | .before_block_translate => decide (to_int ev.1.instr_count > s.dependency_network.enableTaintAt)
  | _ => false

/-- Whether callback number `i` of `evs` is an `on_before_block_translate` at
which the local `int instr` is strictly greater than `enableTaintAt` at that
moment. -/
def firesAt (s : State) (evs : List (CPUState × Event)) (i : Nat) : Bool :=
  match evs[i]? with
  | some ev => fires (stateAt s evs i) ev
  | none => false

/-- Whether callback number `i` of `evs` is an `on_before_block_translate`
whose instruction count is strictly greater than `enableTaintAt` at that
moment. -/
def exceedsAt (s : State) (evs : List (CPUState × Event)) (i : Nat) : Bool :=
  match evs[i]? with
  | some ev => exceeds (stateAt s evs i) ev
  | none => false

end dependency_network

/-! ## `dependency_tracker` -/

namespace dependency_tracker

/-- Modelled from the spec: class `TargetFile` is declared in
`dependency_tracker_def.h`, which is not among the sources. The spec's data
model gives it as `FileTarget{path: string}` with structural equality. -/
structure TargetFile where
  path : String
  deriving DecidableEq

/-- Modelled from the spec: class `TargetNetwork` is declared in
`dependency_tracker_def.h`, which is not among the sources. The spec's data
model gives it as `NetworkTarget{address: string, port: uint16}` with
structural equality. -/
structure TargetNetwork where
  ip : String
  port : Nat
  deriving DecidableEq

/-- Modelled from the spec: base class `Target` is declared in
`dependency_tracker_def.h`, which is not among the sources. The spec's data
model gives it as the closed variant of file and network targets. -/
inductive Target where
  | file (t : TargetFile)
  | network (t : TargetNetwork)
  deriving DecidableEq

/-- Modelled from the spec: `Target::operator==` is declared in
`dependency_tracker_def.h`, which is not among the sources. The spec says that
equality is structural: same variant and field-wise equal. -/
def Target.eq (a b : Target) : Bool := decide (a = b)

/-- A catalogued source: a target and its index (`TargetSource(target, i)`). -/
structure TargetSource where
  target : Target
  index : Nat
  deriving DecidableEq

/-- A catalogued sink: a target and its index (`TargetSink(target, i)`). -/
structure TargetSink where
  target : Target
  index : Nat
  deriving DecidableEq

/-- Accessor `getTarget()` of a source. -/
def TargetSource.getTarget (t : TargetSource) : Target := t.target

/-- Accessor `getTarget()` of a sink. -/
def TargetSink.getTarget (t : TargetSink) : Target := t.target

/-- The global `dependency_tracker`: the catalogues, the table of network
connections keyed by (asid, fd), the debug flag and the instruction count after
which taint is enabled. The process table, which only `getTargetFile` reads and
no registered callback but `on_before_block_execution` touches, is left out. -/
structure Dependency_Tracker where
  sources : List TargetSource
  sinks : List TargetSink
  networks : Nat × Nat → Option TargetNetwork
  debug : Bool
  enableTaintAt : Int

/-- The plugin's global and the taint engine. -/
structure State where
  dependency_tracker : Dependency_Tracker
  taint2 : Taint2

/-- Function `isSink(target)`. -/
def isSink (d : Dependency_Tracker) (target : Target) : Bool :=
  d.sinks.any (fun sink => sink.getTarget.eq target)

/-- Function `isSource(target)`. -/
def isSource (d : Dependency_Tracker) (target : Target) : Bool :=
  d.sources.any (fun source => source.getTarget.eq target)

/-- Function `labelBufferContents(cpu, vAddr, length, label)`: the value
returned and the engine afterwards. The loop state is (`bytesTainted`,
engine). -/
def labelBufferContents (cpu : CPUState) (vAddr length label : Nat) (t : Taint2) :
    Nat × Taint2 :=
  if !taint2_enabled t then (0, t)
  else
    (List.range length).foldl
      (fun (acc : Nat × Taint2) (i : Nat) =>
        let pAddr := cpu.virt_to_phys (vaddr_add vAddr i)
        if pAddr = HWADDR_INVALID then acc
        else (acc.1 + 1, taint2_label_ram acc.2 pAddr label))
      (0, t)

/-- Function `queryBufferContents(cpu, vAddr, length)`. The
`std::map<uint32_t, std::set<uint32_t>>` it returns is a partial function from
the displacement to the label set; `map[i] = x` is an update at `i`. -/
def queryBufferContents (cpu : CPUState) (vAddr length : Nat) (t : Taint2) :
    Nat → Option (Finset Nat) :=
  if !taint2_enabled t then fun _ => none
  else
    (List.range length).foldl
      (fun (map : Nat → Option (Finset Nat)) (i : Nat) =>
        let pAddr := cpu.virt_to_phys (vaddr_add vAddr i)
        if pAddr = HWADDR_INVALID then map
        else
          let labelSet := taint2_query_set_ram t pAddr
          Function.update map i (some labelSet))
      (fun _ => none)

/-- Callback `on_before_block_translate`. -/
def on_before_block_translate (cpu : CPUState) (s : State) : State :=
  let instr := to_int cpu.instr_count
  if taint2_enabled s.taint2 = false ∧ instr > s.dependency_tracker.enableTaintAt then
    { s with taint2 := taint2_enable_taint s.taint2 }
  else s

/-- Handler `on_socketcall_connect_return`. `arguments` are the three words read
at `args`, `addr` is the `sockaddr` read at `arguments[1]`. The two branches on
`isSource` and `isSink` only print. -/
def on_socketcall_connect_return (cpu : CPUState) (arguments : Nat → Nat)
    (addr : sockaddr) (s : State) : State :=
  let saFam := addr.sa_family
  if saFam = AF_INET ∨ saFam = AF_INET6 then
    let port := addr.sin_port
    let sockfd := arguments 0
    let asid_fd_pair := (cpu.asid, sockfd)
    let target : TargetNetwork := { ip := addr.ntop, port := port }
    let s1 := { s with dependency_tracker :=
      { s.dependency_tracker with
        networks := Function.update s.dependency_tracker.networks asid_fd_pair (some target) } }
    if isSource s1.dependency_tracker (Target.network target) then s1
    else if isSink s1.dependency_tracker (Target.network target) then s1
    else s1
  else s

/-- Callback `on_socketcall_return`: the switch on the call number. -/
def on_socketcall_return (cpu : CPUState) (call : Int) (arguments : Nat → Nat)
    (addr : sockaddr) (s : State) : State :=
  if call = SYS_CONNECT then on_socketcall_connect_return cpu arguments addr s
  else s

/-- The quotation mark, character code 34. -/
def QUOTE : Char := Char.ofNat 34

/-- The line feed, character code 10, at which `std::getline(ifs, line)` ends a
line. -/
def NEWLINE : Char := Char.ofNat 10

/-- Library call `std::getline(stream, token, delim)` on a stream whose unread
content is the given text: `none` when the call fails because nothing is left
to extract, else the token (the characters before the first `delim`, or all of
them when there is none) and the content left unread (what follows that
`delim`, which is discarded). -/
def getline (delim : Char) : List Char → Option (List Char × List Char)
  | [] => none
  | c :: cs =>
    if c = delim then some ([], cs)
    else
      match getline delim cs with
      | none => some ([c], [])
      | some (token, rest) => some (c :: token, rest)

/-- The innermost loop of `parseCSV`, `while (std::getline(ss, token, ','))`,
which pushes every token that is not empty. A successful call consumes at least
one character, so a `fuel` greater than the length of `ss` does not run out. -/
def parseCSV_commas : Nat → List Char → List String → List String
  | 0, _, tokens => tokens
  | fuel + 1, ss, tokens =>
    match getline ',' ss with
    | none => tokens
    | some (token, ss1) =>
      parseCSV_commas fuel ss1 (if token.isEmpty then tokens else tokens ++ [String.mk token])

/-- The middle loop of `parseCSV`, `while (std::getline(ssLine, token, '"'))`:
the token before a quotation mark is split on commas, and the token up to the
next quotation mark, when `getline` yields one, is pushed whole if it is not
empty. When that second call fails the stream is exhausted and the loop
condition fails next. A `fuel` greater than the length of `ssLine` does not run
out. -/
def parseCSV_quotes : Nat → List Char → List String → List String
  | 0, _, tokens => tokens
  | fuel + 1, ssLine, tokens =>
    match getline QUOTE ssLine with
    | none => tokens
    | some (token, ssLine1) =>
      let tokens1 := parseCSV_commas (token.length + 1) token tokens
      match getline QUOTE ssLine1 with
      | none => parseCSV_quotes fuel ssLine1 tokens1
      | some (token2, ssLine2) =>
        parseCSV_quotes fuel ssLine2
          (if token2.isEmpty then tokens1 else tokens1 ++ [String.mk token2])

/-- The tokens that the body of the line loop of `parseCSV` collects for one
line. -/
def parseCSV_line (line : List Char) : List String :=
  parseCSV_quotes (line.length + 1) line []

/-- The outer loop of `parseCSV`, `while (std::getline(ifs, line))`: the tokens
of a line are pushed as a row when there is at least one. A `fuel` greater than
the length of the file does not run out. -/
def parseCSV_lines : Nat → List Char → List (List String) → List (List String)
  | 0, _, lines => lines
  | fuel + 1, ifs, lines =>
    match getline NEWLINE ifs with
    | none => lines
    | some (line, ifs1) =>
      let tokens := parseCSV_line line
      parseCSV_lines fuel ifs1 (if tokens.isEmpty then lines else lines ++ [tokens])

/-- Function `parseCSV(fileName)`. The file is `none` when it cannot be opened,
else its content. -/
def parseCSV (file : Option (List Char)) : List (List String) :=
  match file with
  | none => []
  | some content => parseCSV_lines (content.length + 1) content []

/-- The two ways in which `stoi` fails. -/
inductive stoi_error where
  | invalid_argument
  | out_of_range

/-- Function `parseTargets`, on the rows that `parseCSV` returns. `stoi` is the
standard library's conversion. The loop state is (`targets`, `lineNumber`); the
cast to `unsigned short` keeps the value modulo `2 ^ 16`. -/
def parseTargets (stoi : String → Except stoi_error Int) (lines : List (List String)) :
    List Target :=
  (lines.foldl
    (fun (acc : List Target × Nat) (line : List String) =>
      let lineNumber := acc.2 + 1
      if line.length = 2 ∧ line.getD 0 "" = "f" then
        let fileName := line.getD 1 ""
        (acc.1 ++ [Target.file { path := fileName }], lineNumber)
      else if line.length = 3 ∧ line.getD 0 "" = "n" then
        let ip := line.getD 1 ""
        match stoi (line.getD 2 "") with
        | .error _ => (acc.1, lineNumber)
        | .ok v => (acc.1 ++ [Target.network { ip := ip, port := (v % 65536).toNat }], lineNumber)
      else (acc.1, lineNumber))
    ([], 0)).1

/-- The loop of `init_plugin` over `sourcesPtrs`: entry `i` becomes
`TargetSource(sourcesPtrs[i], i)`, appended to the (empty) catalogue. -/
def init_sources (sourcesPtrs : List Target) : List TargetSource :=
  (List.range sourcesPtrs.length).foldl
    (fun (sources : List TargetSource) (i : Nat) =>
      match sourcesPtrs[i]? with
      | some t => sources ++ [{ target := t, index := i }]
      | none => sources)
    []

/-- The loop of `init_plugin` over `sinksPtrs`: entry `i` becomes
`TargetSink(sinksPtrs[i], i)`, appended to the (empty) catalogue. -/
def init_sinks (sinksPtrs : List Target) : List TargetSink :=
  (List.range sinksPtrs.length).foldl
    (fun (sinks : List TargetSink) (i : Nat) =>
      match sinksPtrs[i]? with
      | some t => sinks ++ [{ target := t, index := i }]
      | none => sinks)
    []

/-- Function `init_plugin`: the catalogues are loaded from the rows of the two
files. `enableTaintAt` is the initial value that the header gives the field. -/
def init_plugin (stoi : String → Except stoi_error Int)
    (sourcesLines sinksLines : List (List String)) (debug : Bool) (enableTaintAt : Int) :
    Dependency_Tracker :=
  { sources := init_sources (parseTargets stoi sourcesLines)
    sinks := init_sinks (parseTargets stoi sinksLines)
    networks := fun _ => none
    debug := debug
    enableTaintAt := enableTaintAt }

/-- The callbacks of the plugin that this development follows, each with its
arguments. -/
inductive Event where
  | before_block_translate
  | sys_socketcall_return (call : Int) (arguments : Nat → Nat) (addr : sockaddr)

/-- One callback, delivered with the host's report `cpu`. -/
def step (s : State) (ev : CPUState × Event) : State :=
  match ev.2 with
  | .before_block_translate => on_before_block_translate ev.1 s
  | .sys_socketcall_return call arguments addr => on_socketcall_return ev.1 call arguments addr s

/-- A sequence of callbacks, delivered one after the other. -/
def run (s : State) (evs : List (CPUState × Event)) : State := evs.foldl step s

/-- State after the first `i` callbacks of `evs`. -/
def stateAt (s : State) (evs : List (CPUState × Event)) (i : Nat) : State :=
  run s (evs.take i)

/-- Whether the callback is an `on_before_block_translate` whose instruction
count is strictly greater than `enableTaintAt` in state `s`. -/
def exceeds (s : State) (ev : CPUState × Event) : Bool :=
  match ev.2 with
  | .before_block_translate => decide (ev.1.instr_count > s.dependency_tracker.enableTaintAt)
  | _ => false

/-- Whether the callback is an `on_before_block_translate` at which the local
`int instr`, the instruction count kept in 32 bits, is strictly greater than
`enableTaintAt` in state `s`. -/
def fires (s : State) (ev : CPUState × Event) : Bool :=
  match ev.2 with
  | .before_block_translate => decide (to_int ev.1.instr_count > s.dependency_tracker.enableTaintAt)
  | _ => false

/-- Whether callback number `i` of `evs` is an `on_before_block_translate` at
which the local `int instr` is strictly greater than `enableTaintAt` at that
moment. -/
def firesAt (s : State) (evs : List (CPUState × Event)) (i : Nat) : Bool :=
  match evs[i]? with
  | some ev => fires (stateAt s evs i) ev
  | none => false

/-- Whether callback number `i` of `evs` is an `on_before_block_translate`
whose instruction count is strictly greater than `enableTaintAt` at that
moment. -/
def exceedsAt (s : State) (evs : List (CPUState × Event)) (i : Nat) : Bool :=
  match evs[i]? with
  | some ev => exceeds (stateAt s evs i) ev
  | none => false

end dependency_tracker

/-! ## Statements about buffers -/

/-- Byte `i` of the buffer at `vAddr` translates: `panda_virt_to_phys` does not
return the failure value for `vAddr + i`. -/
def translates (cpu : CPUState) (vAddr i : Nat) : Prop :=
  cpu.virt_to_phys (vaddr_add vAddr i) ≠ HWADDR_INVALID

instance (cpu : CPUState) (vAddr i : Nat) : Decidable (translates cpu vAddr i) := by
  unfold translates
  infer_instance

/-- The physical address of byte `i` of the buffer at `vAddr`. -/
def phys (cpu : CPUState) (vAddr i : Nat) : Nat := cpu.virt_to_phys (vaddr_add vAddr i)

/-- Physical address `p` is the address of a byte of the buffer (`vAddr`,
`length`) that translates. -/
def hit (cpu : CPUState) (vAddr length p : Nat) : Prop :=
  ∃ i, i < length ∧ translates cpu vAddr i ∧ phys cpu vAddr i = p

/-! ## Statements about catalogue loading -/

namespace dependency_tracker

/-- The target that a tokenised row denotes, in the words of the specification:
a row `f, path` is a file target with that path, a row `n, ip, port` whose port
`stoi` converts is a network target (the port kept as an `unsigned short`), and
every other row (unrecognised kind tag, wrong number of fields, port that does
not convert) is malformed and denotes nothing. -/
def spec_row_target (stoi : String → Except stoi_error Int) : List String → Option Target
  | [kind, path] => if kind = "f" then some (.file { path := path }) else none
  | [kind, ip, port] =>
    if kind = "n" then
      match stoi port with
      | .ok v => some (.network { ip := ip, port := (v % 65536).toNat })
      | .error _ => none
    else none
  | _ => none

/-- The comma-separated fields of a text that are not empty, in their order. -/
def comma_fields (text : List Char) : List String :=
  ((text.splitOn ',').filter (fun field => !field.isEmpty)).map String.mk

/-- The tokens of a line given by its pieces between quotation marks, the
pieces at even positions lying outside quotation marks and those at odd
positions inside: a piece outside gives its non-empty comma-separated fields,
a piece inside gives itself as one token when it is not empty. -/
def quoted_tokens : List (List Char) → List String
  | [] => []
  | [outside] => comma_fields outside
  | outside :: inside :: rest =>
    comma_fields outside ++ (if inside.isEmpty then [] else [String.mk inside]) ++
      quoted_tokens rest

/-- The text `f,"a,b.txt"`. -/
def sample_line : List Char := "f,".data ++ [QUOTE] ++ "a,b.txt".data ++ [QUOTE]

/-- A file of four lines: `f,"a,b.txt"`, a line of commas only, an empty line,
and `n,1.2.3.4,,80` without a line feed at its end. -/
def sample_file : List Char :=
  sample_line ++ [NEWLINE] ++ ",,,".data ++ [NEWLINE] ++ [NEWLINE] ++ "n,1.2.3.4,,80".data

/-- A conversion that knows the decimal texts `80` and `443` and rejects every
other text, for the sample rows. -/
def sample_stoi (text : String) : Except stoi_error Int :=
  if text = "80" then .ok 80
  else if text = "443" then .ok 443
  else .error .invalid_argument

/-- Sample rows: a file row, a row with an unknown kind tag, a network row, a
network row whose port does not convert, a file row with a field too many, a
network row. -/
def sample_rows : List (List String) :=
  [["f", "/etc/passwd"], ["x", "y"], ["n", "1.2.3.4", "80"], ["n", "1.2.3.4", "http"],
   ["f", "a", "b"], ["n", "5.6.7.8", "443"]]

end dependency_tracker

/-! ## Statements about runs -/

/-- The contract of the taint gate along a run. `calls n` is the number of calls
of `taint2_enable_taint` up to the end of callback `n - 1`, `enabled n` the
engine's flag at that point, and `exceeds i` says that callback `i` is a
block-translate sample above the threshold of that moment (by the host's count
for the contract as the specification words it, by the local `int instr` for
what the code does).
* over the whole run `taint2_enable_taint` is called at most once;
* a single callback calls it at most once;
* callback `i` calls it exactly when `i` is the first sample above the threshold;
* after the call the engine is enabled at every later point. -/
def GateContract (calls : Nat → Nat) (enabled : Nat → Bool) (exceeds : Nat → Bool) : Prop :=
  (∀ n, calls n ≤ calls 0 + 1) ∧
  (∀ i, calls (i + 1) = calls i ∨ calls (i + 1) = calls i + 1) ∧
  (∀ i, calls (i + 1) = calls i + 1 ↔ (exceeds i = true ∧ ∀ j, j < i → exceeds j = false)) ∧
  (∀ i j, calls (i + 1) = calls i + 1 → i < j → enabled j = true)

namespace dependency_network

/-- Whether the key (`asid`, `fd`) resolves in `s` to a target equal to the
configured sink. -/
def resolvesToSink (s : State) (asid fd : Nat) : Bool :=
  match s.targets (asid, fd) with
  | some target => target.eq s.dependency_network.sink
  | none => false

/-- If the callback is a write, pwrite64, send or sendto return on a key that
resolves in `s` to a target equal to the configured sink: the buffer address
and the length that the write hands to `queryBufferContents`. -/
def sinkWrite (s : State) (ev : CPUState × Event) : Option (Nat × Nat) :=
  match ev.2 with
  | .sys_write_return fd buffer count =>
    if resolvesToSink s ev.1.asid fd then some (buffer, count) else none
  | .sys_pwrite64_return fd buffer count =>
    if resolvesToSink s ev.1.asid fd then some (buffer, count) else none
  | .sys_socketcall_return call arguments _ =>
    if call = SYS_SEND ∨ call = SYS_SENDTO then
      if resolvesToSink s ev.1.asid (arguments 0) then some (arguments 1, arguments 2) else none
    else none
  | _ => none

/-- The callback is a write, pwrite64, send or sendto return on a key that
resolves in `s` to a target equal to the configured sink. -/
def isSinkEvent (s : State) (ev : CPUState × Event) : Bool := (sinkWrite s ev).isSome

/-- The callback is such a sink event and `queryBufferContents` counts at least
one tainted byte in its buffer. -/
def isTaintedSinkEvent (s : State) (ev : CPUState × Event) : Bool :=
  match sinkWrite s ev with
  | some (buffer, count) => decide (queryBufferContents ev.1 buffer count s.taint2 > 0)
  | none => false

/-- Whether callback number `i` of `evs` is a sink event at that moment. -/
def sinkEventAt (s : State) (evs : List (CPUState × Event)) (i : Nat) : Bool :=
  match evs[i]? with
  | some ev => isSinkEvent (stateAt s evs i) ev
  | none => false

/-- Whether callback number `i` of `evs` is a sink event at that moment in
whose buffer `queryBufferContents` counts at least one tainted byte. -/
def taintedSinkEventAt (s : State) (evs : List (CPUState × Event)) (i : Nat) : Bool :=
  match evs[i]? with
  | some ev => isTaintedSinkEvent (stateAt s evs i) ev
  | none => false

end dependency_network

/-! ## Sample inputs -/

/-- An engine that is off, has never been enabled and holds no label. -/
def taint2_off : Taint2 := { enabled := false, enable_calls := 0, ram := fun _ => ∅ }

/-- A host report: address space `asid`, instruction count `instr`, and a
translation that maps every virtual address to itself. -/
def cpu_at (asid : Nat) (instr : Int) : CPUState :=
  { asid := asid, instr_count := instr, virt_to_phys := fun v => v }

/-- The words at `args` of a socket call: `a0`, `a1`, `a2`, then zeros. -/
def words (a0 a1 a2 : Nat) : Nat → Nat := fun k =>
  if k = 0 then a0 else if k = 1 then a1 else if k = 2 then a2 else 0

/-- A socket address of family `AF_INET` whose port field reads `port` and
whose address prints as `ip`. -/
def inet_addr_of (ip : String) (port : Nat) : sockaddr :=
  { sa_family := AF_INET, sin_port := port, ntop := ip }

/-- An engine that is on and holds no label. -/
def taint2_on : Taint2 := { enabled := true, enable_calls := 1, ram := fun _ => ∅ }

/-- A host report whose translation fails at virtual address `4097` and maps
every other virtual address `v` to `v + 1048576`. -/
def cpu_hole : CPUState :=
  { asid := 1
    instr_count := 50
    virt_to_phys := fun v => if v = 4097 then HWADDR_INVALID else v + 1048576 }

/-- A socket address of family `1` (`AF_UNIX`). -/
def unix_addr : sockaddr := { sa_family := 1, sin_port := 0, ntop := "" }

namespace dependency_network

/-- Sample: source `1.2.3.4` port `80`, sink `5.6.7.8` port `443`, threshold
`1000`, no connection known, all flags false, taint off. -/
def sample_state : State :=
  { dependency_network :=
      { source := { ip := "1.2.3.4", port := 80 }
        sink := { ip := "5.6.7.8", port := 443 }
        debug := false
        enableTaintAt := 1000 }
    targets := fun _ => none
    sawReadOfSource := false
    sawWriteOfSink := false
    dependency := false
    taint2 := taint2_off }

/-- Sample run: a sample below the threshold, a connect whose target is the
source at count 5, a sample at count 5, a sample at count 7, a connect whose
target is the sink at count 10, a sample at count 8. -/
def sample_events : List (CPUState × Event) :=
  [ (cpu_at 1 3, .before_block_translate),
    (cpu_at 1 5, .sys_socketcall_return SYS_CONNECT (words 3 0 0) (inet_addr_of "1.2.3.4" 80)),
    (cpu_at 1 5, .before_block_translate),
    (cpu_at 1 7, .before_block_translate),
    (cpu_at 1 10, .sys_socketcall_return SYS_CONNECT (words 4 0 0) (inet_addr_of "5.6.7.8" 443)),
    (cpu_at 1 8, .before_block_translate) ]

/-- Run beyond 32 bits: a connect whose target is the source at instruction
count 100, which sets the threshold to `100`, then a block-translate sample at
count `2 ^ 32 + 5`. -/
def overflow_events : List (CPUState × Event) :=
  [ (cpu_at 1 100, .sys_socketcall_return SYS_CONNECT (words 3 0 0) (inet_addr_of "1.2.3.4" 80)),
    (cpu_at 1 4294967301, .before_block_translate) ]

/-- Sample run with a data flow, port fields reading the configured ports:
connect of handle 3 to the source at count 5, a sample at count 7, recv on
handle 3 into 2 bytes at `4096`, connect of handle 4 to the sink, send on
handle 3 (not the sink) of the 2 bytes, send on handle 4 (the sink) of the 2
bytes. -/
def flow_events : List (CPUState × Event) :=
  [ (cpu_at 1 5, .sys_socketcall_return SYS_CONNECT (words 3 0 0) (inet_addr_of "1.2.3.4" 80)),
    (cpu_at 1 7, .before_block_translate),
    (cpu_at 1 8, .sys_socketcall_return SYS_RECV (words 3 4096 2) unix_addr),
    (cpu_at 1 9, .sys_socketcall_return SYS_CONNECT (words 4 0 0) (inet_addr_of "5.6.7.8" 443)),
    (cpu_at 1 10, .sys_socketcall_return SYS_SEND (words 3 4096 2) unix_addr),
    (cpu_at 1 11, .sys_socketcall_return SYS_SEND (words 4 4096 2) unix_addr) ]

/-- Scenario A, the configuration: source `1.2.3.4` port `80`, sink `5.6.7.8`
port `443`, all flags false; the threshold, the resolver table and the engine
are those given. -/
def scenario_state (enableTaintAt : Int)
    (targets : Nat × Nat → Option Dependency_Network_Target) (taint2 : Taint2) : State :=
  { dependency_network :=
      { source := { ip := "1.2.3.4", port := 80 }
        sink := { ip := "5.6.7.8", port := 443 }
        debug := false
        enableTaintAt := enableTaintAt }
    targets := targets
    sawReadOfSource := false
    sawWriteOfSink := false
    dependency := false
    taint2 := taint2 }

/-- Scenario A, the events, in address space 1 under the translation `v2p`:
connect on handle 3 with socket address `to_source` at instruction count `c`, a
block-translate sample at count `instr`, recv on handle 3 into 16 bytes at
`0x1000`, connect on handle 4 with socket address `to_sink`, send on handle 4
of 16 bytes at `0x1000`. -/
def scenario_events (to_source to_sink : sockaddr) (c instr : Int) (v2p : Nat → Nat) :
    List (CPUState × Event) :=
  [ ({ asid := 1, instr_count := c, virt_to_phys := v2p },
      .sys_socketcall_return SYS_CONNECT (words 3 0 0) to_source),
    ({ asid := 1, instr_count := instr, virt_to_phys := v2p }, .before_block_translate),
    ({ asid := 1, instr_count := instr, virt_to_phys := v2p },
      .sys_socketcall_return SYS_RECV (words 3 4096 16) unix_addr),
    ({ asid := 1, instr_count := instr, virt_to_phys := v2p },
      .sys_socketcall_return SYS_CONNECT (words 4 0 0) to_sink),
    ({ asid := 1, instr_count := instr, virt_to_phys := v2p },
      .sys_socketcall_return SYS_SEND (words 4 4096 16) unix_addr) ]

end dependency_network

namespace dependency_tracker

/-- Sample: one catalogued source `1.2.3.4` port `80`, one catalogued sink
`5.6.7.8` port `443`, threshold `6`, no connection known, taint off. -/
def sample_state : State :=
  { dependency_tracker :=
      { sources := [{ target := .network { ip := "1.2.3.4", port := 80 }, index := 0 }]
        sinks := [{ target := .network { ip := "5.6.7.8", port := 443 }, index := 0 }]
        networks := fun _ => none
        debug := false
        enableTaintAt := 6 }
    taint2 := taint2_off }

/-- Run beyond 32 bits: a block-translate sample at count `2 ^ 32 + 5`. -/
def overflow_events : List (CPUState × Event) :=
  [ (cpu_at 1 4294967301, .before_block_translate) ]

/-- Sample run: a connect whose target is the catalogued source at count 5, a
sample at count 5, a sample at count 7, a sample at count 9. -/
def sample_events : List (CPUState × Event) :=
  [ (cpu_at 1 5, .sys_socketcall_return SYS_CONNECT (words 3 0 0) (inet_addr_of "1.2.3.4" 80)),
    (cpu_at 1 5, .before_block_translate),
    (cpu_at 1 7, .before_block_translate),
    (cpu_at 1 9, .before_block_translate) ]

end dependency_tracker

/-! ## Lemmas -/

section gate

theorem gate_enabled_iff (E x : Nat → Bool) (hE0 : E 0 = false)
    (hE : ∀ i, E (i + 1) = (E i || x i)) (i : Nat) :
    E i = false ↔ ∀ j, j < i → x j = false := by
  induction i with
  | zero => simp [hE0]
  | succ n ih =>
    rw [hE n, Bool.or_eq_false_iff, ih]
    constructor
    · rintro ⟨h1, h2⟩ j hj
      rcases Nat.lt_succ_iff_lt_or_eq.mp hj with h | h
      · exact h1 j h
      · exact h ▸ h2
    · intro h
      exact ⟨fun j hj => h j (Nat.lt_succ_of_lt hj), h n (Nat.lt_succ_self n)⟩

theorem gate_enabled_mono (E x : Nat → Bool) (hE : ∀ i, E (i + 1) = (E i || x i))
    (i j : Nat) (hij : i ≤ j) (hi : E i = true) : E j = true := by
  induction j with
  | zero =>
    have : i = 0 := Nat.le_zero.mp hij
    exact this ▸ hi
  | succ n ih =>
    rcases Nat.le_succ_iff.mp hij with h | h
    · rw [hE n, ih h]; rfl
    · subst h; exact hi

theorem gate_calls_eq (E x : Nat → Bool) (C : Nat → Nat) (hE0 : E 0 = false)
    (hE : ∀ i, E (i + 1) = (E i || x i))
    (hC : ∀ i, C (i + 1) = C i + (if E i = false ∧ x i = true then 1 else 0)) (n : Nat) :
    C n = C 0 + (if E n = true then 1 else 0) := by
  induction n with
  | zero => simp [hE0]
  | succ n ih =>
    rw [hC n, ih, hE n]
    cases hEn : E n <;> cases hxn : x n <;> simp

theorem gate_contract (E x : Nat → Bool) (C : Nat → Nat) (hE0 : E 0 = false)
    (hE : ∀ i, E (i + 1) = (E i || x i))
    (hC : ∀ i, C (i + 1) = C i + (if E i = false ∧ x i = true then 1 else 0)) :
    GateContract C E x := by
  have hstep : ∀ i, C (i + 1) = C i + 1 ↔ (E i = false ∧ x i = true) := by
    intro i
    rw [hC i]
    by_cases h : E i = false ∧ x i = true <;> simp [h]
  refine ⟨?_, ?_, ?_, ?_⟩
  · intro n
    rw [gate_calls_eq E x C hE0 hE hC n]
    split <;> simp
  · intro i
    rw [hC i]
    by_cases h : E i = false ∧ x i = true <;> simp [h]
  · intro i
    rw [hstep i, gate_enabled_iff E x hE0 hE i]
    exact and_comm
  · intro i j hcall hij
    have h := (hstep i).mp hcall
    have h1 : E (i + 1) = true := by rw [hE i, h.2]; simp
    exact gate_enabled_mono E x hE (i + 1) j hij h1

end gate

section folds

theorem foldl_preserves {α β : Type} (P : β → Prop) (f : β → α → β)
    (hf : ∀ b a, P b → P (f b a)) (l : List α) (b : β) (hb : P b) : P (l.foldl f b) := by
  induction l generalizing b with
  | nil => exact hb
  | cons a l ih => exact ih (f b a) (hf b a hb)

theorem foldl_take_succ_some {α β : Type} (f : β → α → β) (l : List α) (b : β) (i : Nat)
    (a : α) (h : l[i]? = some a) :
    (l.take (i + 1)).foldl f b = f ((l.take i).foldl f b) a := by
  rw [List.take_succ, List.foldl_append, h]
  rfl

theorem foldl_take_succ_none {α β : Type} (f : β → α → β) (l : List α) (b : β) (i : Nat)
    (h : l[i]? = none) :
    (l.take (i + 1)).foldl f b = (l.take i).foldl f b := by
  rw [List.take_succ, List.foldl_append, h]
  rfl

end folds

namespace dependency_network

theorem labelBufferContents_flags (cpu : CPUState) (vAddr length : Nat) (t : Taint2) :
    (labelBufferContents cpu vAddr length t).enabled = t.enabled ∧
      (labelBufferContents cpu vAddr length t).enable_calls = t.enable_calls := by
  unfold labelBufferContents
  split
  · exact ⟨rfl, rfl⟩
  · apply foldl_preserves
      (fun acc : Nat × Taint2 => acc.2.enabled = t.enabled ∧ acc.2.enable_calls = t.enable_calls)
    · intro b a hb
      dsimp only
      split
      · exact hb
      · exact hb
    · exact ⟨rfl, rfl⟩

theorem on_pread64_return_flags (cpu : CPUState) (fd buffer count : Nat) (s : State) :
    (on_pread64_return cpu fd buffer count s).taint2.enabled = s.taint2.enabled ∧
      (on_pread64_return cpu fd buffer count s).taint2.enable_calls = s.taint2.enable_calls ∧
      (on_pread64_return cpu fd buffer count s).dependency_network = s.dependency_network := by
  unfold on_pread64_return
  split
  · exact ⟨rfl, rfl, rfl⟩
  · split
    · exact ⟨(labelBufferContents_flags _ _ _ _).1, (labelBufferContents_flags _ _ _ _).2, rfl⟩
    · exact ⟨rfl, rfl, rfl⟩

theorem on_pwrite64_return_flags (cpu : CPUState) (fd buffer count : Nat) (s : State) :
    (on_pwrite64_return cpu fd buffer count s).taint2 = s.taint2 ∧
      (on_pwrite64_return cpu fd buffer count s).dependency_network = s.dependency_network := by
  unfold on_pwrite64_return
  split
  · exact ⟨rfl, rfl⟩
  · split <;> exact ⟨rfl, rfl⟩

theorem on_socketcall_connect_return_taint2 (cpu : CPUState) (arguments : Nat → Nat)
    (addr : sockaddr) (s : State) :
    (on_socketcall_connect_return cpu arguments addr s).taint2 = s.taint2 := by
  unfold on_socketcall_connect_return
  dsimp only
  split
  · split
    · rfl
    · split <;> rfl
  · rfl

theorem on_socketcall_recv_return_flags (cpu : CPUState) (arguments : Nat → Nat) (s : State) :
    (on_socketcall_recv_return cpu arguments s).taint2.enabled = s.taint2.enabled ∧
      (on_socketcall_recv_return cpu arguments s).taint2.enable_calls = s.taint2.enable_calls := by
  unfold on_socketcall_recv_return
  dsimp only
  split
  · exact ⟨rfl, rfl⟩
  · split
    · exact labelBufferContents_flags _ _ _ _
    · exact ⟨rfl, rfl⟩

theorem on_socketcall_send_return_taint2 (cpu : CPUState) (arguments : Nat → Nat) (s : State) :
    (on_socketcall_send_return cpu arguments s).taint2 = s.taint2 := by
  unfold on_socketcall_send_return
  dsimp only
  split
  · rfl
  · split <;> rfl

theorem on_socketcall_return_flags (cpu : CPUState) (call : Int) (arguments : Nat → Nat)
    (addr : sockaddr) (s : State) :
    (on_socketcall_return cpu call arguments addr s).taint2.enabled = s.taint2.enabled ∧
      (on_socketcall_return cpu call arguments addr s).taint2.enable_calls =
        s.taint2.enable_calls := by
  unfold on_socketcall_return
  split
  · rw [on_socketcall_connect_return_taint2]; exact ⟨rfl, rfl⟩
  · split
    · rw [on_socketcall_send_return_taint2]; exact ⟨rfl, rfl⟩
    · split
      · exact on_socketcall_recv_return_flags _ _ _
      · exact ⟨rfl, rfl⟩

theorem network_step_flags (s : State) (ev : CPUState × Event) :
    (step s ev).taint2.enabled = (s.taint2.enabled || fires s ev) ∧
      (step s ev).taint2.enable_calls =
        s.taint2.enable_calls + (if s.taint2.enabled = false ∧ fires s ev = true then 1 else 0) := by
  obtain ⟨cpu, e⟩ := ev
  cases e with
  | before_block_translate =>
    simp only [step, fires, on_before_block_translate, taint2_enabled, taint2_enable_taint]
    by_cases h1 : s.taint2.enabled = false
    · by_cases h2 : to_int cpu.instr_count > s.dependency_network.enableTaintAt
      · simp [h1, h2]
      · simp [h1, h2]
    · simp [h1]
  | sys_socketcall_return call arguments addr =>
    have h := on_socketcall_return_flags cpu call arguments addr s
    simp only [step, fires]
    simp [h.1, h.2]
  | sys_pread64_return fd buffer count =>
    have h := on_pread64_return_flags cpu fd buffer count s
    simp only [step, fires]
    simp [h.1, h.2.1]
  | sys_pwrite64_return fd buffer count =>
    have h := on_pwrite64_return_flags cpu fd buffer count s
    simp only [step, fires]
    simp [h.1]
  | sys_read_return fd buffer count =>
    have h := on_pread64_return_flags cpu fd buffer count s
    simp only [step, fires, on_read_return]
    simp [h.1, h.2.1]
  | sys_write_return fd buffer count =>
    have h := on_pwrite64_return_flags cpu fd buffer count s
    simp only [step, fires, on_write_return]
    simp [h.1]

theorem network_stateAt_succ_some (s : State) (evs : List (CPUState × Event)) (i : Nat)
    (ev : CPUState × Event) (h : evs[i]? = some ev) :
    stateAt s evs (i + 1) = step (stateAt s evs i) ev :=
  foldl_take_succ_some step evs s i ev h

theorem network_stateAt_succ_none (s : State) (evs : List (CPUState × Event)) (i : Nat)
    (h : evs[i]? = none) : stateAt s evs (i + 1) = stateAt s evs i :=
  foldl_take_succ_none step evs s i h

theorem network_gate_holds (s : State) (evs : List (CPUState × Event))
    (h0 : s.taint2.enabled = false) :
    GateContract (fun n => (stateAt s evs n).taint2.enable_calls)
      (fun n => (stateAt s evs n).taint2.enabled) (firesAt s evs) := by
  apply gate_contract
  · simpa [stateAt, run] using h0
  · intro i
    cases h : evs[i]? with
    | none => simp only [network_stateAt_succ_none s evs i h, firesAt, h]; simp
    | some ev =>
      simp only [network_stateAt_succ_some s evs i ev h, firesAt, h]
      exact (network_step_flags _ ev).1
  · intro i
    cases h : evs[i]? with
    | none => simp only [network_stateAt_succ_none s evs i h, firesAt, h]; simp
    | some ev =>
      simp only [network_stateAt_succ_some s evs i ev h, firesAt, h]
      exact (network_step_flags _ ev).2

end dependency_network

namespace dependency_tracker

theorem on_socketcall_connect_return_frame (cpu : CPUState) (arguments : Nat → Nat)
    (addr : sockaddr) (s : State) :
    (on_socketcall_connect_return cpu arguments addr s).taint2 = s.taint2 ∧
      (on_socketcall_connect_return cpu arguments addr s).dependency_tracker.enableTaintAt =
        s.dependency_tracker.enableTaintAt := by
  unfold on_socketcall_connect_return
  dsimp only
  split
  · split
    · exact ⟨rfl, rfl⟩
    · split <;> exact ⟨rfl, rfl⟩
  · exact ⟨rfl, rfl⟩

theorem on_socketcall_return_frame (cpu : CPUState) (call : Int) (arguments : Nat → Nat)
    (addr : sockaddr) (s : State) :
    (on_socketcall_return cpu call arguments addr s).taint2 = s.taint2 ∧
      (on_socketcall_return cpu call arguments addr s).dependency_tracker.enableTaintAt =
        s.dependency_tracker.enableTaintAt := by
  unfold on_socketcall_return
  split
  · exact on_socketcall_connect_return_frame _ _ _ _
  · exact ⟨rfl, rfl⟩

theorem tracker_step_flags (s : State) (ev : CPUState × Event) :
    (step s ev).taint2.enabled = (s.taint2.enabled || fires s ev) ∧
      (step s ev).taint2.enable_calls =
        s.taint2.enable_calls + (if s.taint2.enabled = false ∧ fires s ev = true then 1 else 0) := by
  obtain ⟨cpu, e⟩ := ev
  cases e with
  | before_block_translate =>
    simp only [step, fires, on_before_block_translate, taint2_enabled, taint2_enable_taint]
    by_cases h1 : s.taint2.enabled = false
    · by_cases h2 : to_int cpu.instr_count > s.dependency_tracker.enableTaintAt
      · simp [h1, h2]
      · simp [h1, h2]
    · simp [h1]
  | sys_socketcall_return call arguments addr =>
    have h := on_socketcall_return_frame cpu call arguments addr s
    simp only [step, fires]
    simp [h.1]

theorem tracker_stateAt_succ_some (s : State) (evs : List (CPUState × Event)) (i : Nat)
    (ev : CPUState × Event) (h : evs[i]? = some ev) :
    stateAt s evs (i + 1) = step (stateAt s evs i) ev :=
  foldl_take_succ_some step evs s i ev h

theorem tracker_stateAt_succ_none (s : State) (evs : List (CPUState × Event)) (i : Nat)
    (h : evs[i]? = none) : stateAt s evs (i + 1) = stateAt s evs i :=
  foldl_take_succ_none step evs s i h

theorem tracker_gate_holds (s : State) (evs : List (CPUState × Event))
    (h0 : s.taint2.enabled = false) :
    GateContract (fun n => (stateAt s evs n).taint2.enable_calls)
      (fun n => (stateAt s evs n).taint2.enabled) (firesAt s evs) := by
  apply gate_contract
  · simpa [stateAt, run] using h0
  · intro i
    cases h : evs[i]? with
    | none => simp only [tracker_stateAt_succ_none s evs i h, firesAt, h]; simp
    | some ev =>
      simp only [tracker_stateAt_succ_some s evs i ev h, firesAt, h]
      exact (tracker_step_flags _ ev).1
  · intro i
    cases h : evs[i]? with
    | none => simp only [tracker_stateAt_succ_none s evs i h, firesAt, h]; simp
    | some ev =>
      simp only [tracker_stateAt_succ_some s evs i ev h, firesAt, h]
      exact (tracker_step_flags _ ev).2

end dependency_tracker

/-! ## The taint gate (C1) -/

theorem to_int_of_range (count : Int) (h1 : -2 ^ 31 ≤ count) (h2 : count < 2 ^ 31) :
    to_int count = count := by
  unfold to_int
  omega

namespace dependency_network

theorem firesAt_eq_exceedsAt (s : State) (evs : List (CPUState × Event))
    (hr : ∀ ev ∈ evs, -2 ^ 31 ≤ ev.1.instr_count ∧ ev.1.instr_count < 2 ^ 31) :
    firesAt s evs = exceedsAt s evs := by
  funext i
  unfold firesAt exceedsAt
  cases h : evs[i]? with
  | none => rfl
  | some ev =>
    obtain ⟨h1, h2⟩ := hr ev (List.getElem?_mem h)
    obtain ⟨cpu, e⟩ := ev
    cases e <;> simp only [fires, exceeds]
    rw [to_int_of_range cpu.instr_count h1 h2]

end dependency_network

namespace dependency_tracker

theorem tracker_firesAt_eq_exceedsAt (s : State) (evs : List (CPUState × Event))
    (hr : ∀ ev ∈ evs, -2 ^ 31 ≤ ev.1.instr_count ∧ ev.1.instr_count < 2 ^ 31) :
    firesAt s evs = exceedsAt s evs := by
  funext i
  unfold firesAt exceedsAt
  cases h : evs[i]? with
  | none => rfl
  | some ev =>
    obtain ⟨h1, h2⟩ := hr ev (List.getElem?_mem h)
    obtain ⟨cpu, e⟩ := ev
    cases e <;> simp only [fires, exceeds]
    rw [to_int_of_range cpu.instr_count h1 h2]

end dependency_tracker

/-- The taint gate as the code runs it. Along every sequence of callbacks of
`dependency_network` and along every sequence of callbacks of
`dependency_tracker` that starts with the taint engine disabled:
`taint2_enable_taint` is called at most once over the whole sequence, callback
`i` calls it exactly when `i` is the first `on_before_block_translate` at which
the local `int instr`, the instruction count kept in 32 bits, is strictly
greater than the value of `enableTaintAt` at that moment, and from that call on
the engine is enabled at every later point of the sequence, whatever the later
connects write to `enableTaintAt`. -/
theorem taint_gate_fires_once
    (sN : dependency_network.State) (evsN : List (CPUState × dependency_network.Event))
    (sT : dependency_tracker.State) (evsT : List (CPUState × dependency_tracker.Event))
    (hN : taint2_enabled sN.taint2 = false) (hT : taint2_enabled sT.taint2 = false) :
    GateContract (fun n => (dependency_network.stateAt sN evsN n).taint2.enable_calls)
        (fun n => taint2_enabled (dependency_network.stateAt sN evsN n).taint2)
        (dependency_network.firesAt sN evsN) ∧
      GateContract (fun n => (dependency_tracker.stateAt sT evsT n).taint2.enable_calls)
        (fun n => taint2_enabled (dependency_tracker.stateAt sT evsT n).taint2)
        (dependency_tracker.firesAt sT evsT) :=
  ⟨dependency_network.network_gate_holds sN evsN hN,
    dependency_tracker.tracker_gate_holds sT evsT hT⟩

/-- The taint gate as the code runs it, at the sample runs of both plugins. In
the run of `dependency_network` the threshold is `1000`, then `5` after the
connect to the source: the sample at count 3 and the sample at count 5 do not
fire, the sample at count 7 (callback 3) does, and the later connect to the
sink, which sets the threshold to `10`, and the sample at count 8 change
nothing. -/
theorem taint_gate_fires_once_witness :
    taint2_enabled dependency_network.sample_state.taint2 = false ∧
      taint2_enabled dependency_tracker.sample_state.taint2 = false ∧
      (GateContract
          (fun n => (dependency_network.stateAt dependency_network.sample_state
            dependency_network.sample_events n).taint2.enable_calls)
          (fun n => taint2_enabled (dependency_network.stateAt dependency_network.sample_state
            dependency_network.sample_events n).taint2)
          (dependency_network.firesAt dependency_network.sample_state
            dependency_network.sample_events) ∧
        GateContract
          (fun n => (dependency_tracker.stateAt dependency_tracker.sample_state
            dependency_tracker.sample_events n).taint2.enable_calls)
          (fun n => taint2_enabled (dependency_tracker.stateAt dependency_tracker.sample_state
            dependency_tracker.sample_events n).taint2)
          (dependency_tracker.firesAt dependency_tracker.sample_state
            dependency_tracker.sample_events)) ∧
      (dependency_network.stateAt dependency_network.sample_state
        dependency_network.sample_events 3).taint2.enable_calls = 0 ∧
      (dependency_network.stateAt dependency_network.sample_state
        dependency_network.sample_events 4).taint2.enable_calls = 1 ∧
      (dependency_network.stateAt dependency_network.sample_state
        dependency_network.sample_events 6).taint2.enable_calls = 1 ∧
      (dependency_network.stateAt dependency_network.sample_state
        dependency_network.sample_events 6).dependency_network.enableTaintAt = 10 ∧
      (dependency_tracker.stateAt dependency_tracker.sample_state
        dependency_tracker.sample_events 2).taint2.enable_calls = 0 ∧
      (dependency_tracker.stateAt dependency_tracker.sample_state
        dependency_tracker.sample_events 3).taint2.enable_calls = 1 :=
  ⟨rfl, rfl, taint_gate_fires_once _ _ _ _ rfl rfl, by decide, by decide, by decide, by decide,
    by decide, by decide⟩

/-- The gate contract as the specification words it, by the host's instruction
count, holds along every sequence of callbacks of either plugin that starts
with the taint engine disabled and in which every instruction count fits an
`int`, that is, lies from `-2 ^ 31` up to but not including `2 ^ 31`. -/
theorem taint_gate_within_int_range
    (sN : dependency_network.State) (evsN : List (CPUState × dependency_network.Event))
    (sT : dependency_tracker.State) (evsT : List (CPUState × dependency_tracker.Event))
    (hN : taint2_enabled sN.taint2 = false) (hT : taint2_enabled sT.taint2 = false)
    (hrN : ∀ ev ∈ evsN, -2 ^ 31 ≤ ev.1.instr_count ∧ ev.1.instr_count < 2 ^ 31)
    (hrT : ∀ ev ∈ evsT, -2 ^ 31 ≤ ev.1.instr_count ∧ ev.1.instr_count < 2 ^ 31) :
    GateContract (fun n => (dependency_network.stateAt sN evsN n).taint2.enable_calls)
        (fun n => taint2_enabled (dependency_network.stateAt sN evsN n).taint2)
        (dependency_network.exceedsAt sN evsN) ∧
      GateContract (fun n => (dependency_tracker.stateAt sT evsT n).taint2.enable_calls)
        (fun n => taint2_enabled (dependency_tracker.stateAt sT evsT n).taint2)
        (dependency_tracker.exceedsAt sT evsT) := by
  rw [← dependency_network.firesAt_eq_exceedsAt sN evsN hrN,
    ← dependency_tracker.tracker_firesAt_eq_exceedsAt sT evsT hrT]
  exact ⟨dependency_network.network_gate_holds sN evsN hN,
    dependency_tracker.tracker_gate_holds sT evsT hT⟩

/-- The gate contract by the host's instruction count, at the sample runs of
both plugins, whose counts all fit an `int`. -/
theorem taint_gate_within_int_range_witness :
    taint2_enabled dependency_network.sample_state.taint2 = false ∧
      taint2_enabled dependency_tracker.sample_state.taint2 = false ∧
      (GateContract
          (fun n => (dependency_network.stateAt dependency_network.sample_state
            dependency_network.sample_events n).taint2.enable_calls)
          (fun n => taint2_enabled (dependency_network.stateAt dependency_network.sample_state
            dependency_network.sample_events n).taint2)
          (dependency_network.exceedsAt dependency_network.sample_state
            dependency_network.sample_events) ∧
        GateContract
          (fun n => (dependency_tracker.stateAt dependency_tracker.sample_state
            dependency_tracker.sample_events n).taint2.enable_calls)
          (fun n => taint2_enabled (dependency_tracker.stateAt dependency_tracker.sample_state
            dependency_tracker.sample_events n).taint2)
          (dependency_tracker.exceedsAt dependency_tracker.sample_state
            dependency_tracker.sample_events)) :=
  ⟨rfl, rfl,
    taint_gate_within_int_range _ _ _ _ rfl rfl
      (by
        intro ev hev
        simp only [dependency_network.sample_events, List.mem_cons, List.mem_singleton,
          List.mem_nil_iff, or_false] at hev
        rcases hev with h | h | h | h | h | h <;> subst h <;> exact ⟨by decide, by decide⟩)
      (by
        intro ev hev
        simp only [dependency_tracker.sample_events, List.mem_cons, List.mem_singleton,
          List.mem_nil_iff, or_false] at hev
        rcases hev with h | h | h | h <;> subst h <;> exact ⟨by decide, by decide⟩)⟩

/-- C1, the code at an instruction count beyond 32 bits. The gate assigns the
host's 64-bit count to `int instr` before it compares: at count `2 ^ 32 + 5`
the local holds `5`. In `dependency_network`, with taint disabled and the
threshold armed to `100` by a connect, the block-translate sample at that count
(callback 1) is the first whose instruction count is strictly greater than
`enableTaintAt`, yet `taint2_enable_taint` is not called and the engine stays
disabled; so the contract by the host's count fails on this run. Likewise in
`dependency_tracker` with threshold `6`. -/
theorem taint_gate_misses_count_beyond_int :
    to_int 4294967301 = 5 ∧
      (taint2_enabled dependency_network.sample_state.taint2 = false ∧
        (dependency_network.stateAt dependency_network.sample_state
          dependency_network.overflow_events 1).dependency_network.enableTaintAt = 100 ∧
        dependency_network.exceedsAt dependency_network.sample_state
          dependency_network.overflow_events 0 = false ∧
        dependency_network.exceedsAt dependency_network.sample_state
          dependency_network.overflow_events 1 = true ∧
        (dependency_network.stateAt dependency_network.sample_state
            dependency_network.overflow_events 2).taint2.enable_calls =
          (dependency_network.stateAt dependency_network.sample_state
            dependency_network.overflow_events 1).taint2.enable_calls ∧
        taint2_enabled (dependency_network.run dependency_network.sample_state
          dependency_network.overflow_events).taint2 = false ∧
        ¬ GateContract
          (fun n => (dependency_network.stateAt dependency_network.sample_state
            dependency_network.overflow_events n).taint2.enable_calls)
          (fun n => taint2_enabled (dependency_network.stateAt dependency_network.sample_state
            dependency_network.overflow_events n).taint2)
          (dependency_network.exceedsAt dependency_network.sample_state
            dependency_network.overflow_events)) ∧
      (taint2_enabled dependency_tracker.sample_state.taint2 = false ∧
        dependency_tracker.sample_state.dependency_tracker.enableTaintAt = 6 ∧
        dependency_tracker.exceedsAt dependency_tracker.sample_state
          dependency_tracker.overflow_events 0 = true ∧
        (dependency_tracker.stateAt dependency_tracker.sample_state
            dependency_tracker.overflow_events 1).taint2.enable_calls =
          (dependency_tracker.stateAt dependency_tracker.sample_state
            dependency_tracker.overflow_events 0).taint2.enable_calls ∧
        taint2_enabled (dependency_tracker.run dependency_tracker.sample_state
          dependency_tracker.overflow_events).taint2 = false ∧
        ¬ GateContract
          (fun n => (dependency_tracker.stateAt dependency_tracker.sample_state
            dependency_tracker.overflow_events n).taint2.enable_calls)
          (fun n => taint2_enabled (dependency_tracker.stateAt dependency_tracker.sample_state
            dependency_tracker.overflow_events n).taint2)
          (dependency_tracker.exceedsAt dependency_tracker.sample_state
            dependency_tracker.overflow_events)) := by
  refine ⟨by decide, ⟨rfl, by decide, by decide, by decide, by decide, by decide, ?_⟩,
    ⟨rfl, rfl, by decide, by decide, by decide, ?_⟩⟩
  · intro h
    have hcall := (h.2.2.1 1).mpr ⟨by decide, fun j hj => by
      have hj0 : j = 0 := by omega
      subst hj0
      decide⟩
    have hno : (dependency_network.stateAt dependency_network.sample_state
          dependency_network.overflow_events 2).taint2.enable_calls =
        (dependency_network.stateAt dependency_network.sample_state
          dependency_network.overflow_events 1).taint2.enable_calls := by decide
    have hcall2 : (dependency_network.stateAt dependency_network.sample_state
          dependency_network.overflow_events 2).taint2.enable_calls =
        (dependency_network.stateAt dependency_network.sample_state
          dependency_network.overflow_events 1).taint2.enable_calls + 1 := hcall
    rw [hno] at hcall2
    exact absurd hcall2 (Nat.ne_of_lt (Nat.lt_succ_self _))
  · intro h
    have hcall := (h.2.2.1 0).mpr ⟨by decide, fun j hj => absurd hj (Nat.not_lt_zero j)⟩
    have hno : (dependency_tracker.stateAt dependency_tracker.sample_state
          dependency_tracker.overflow_events 1).taint2.enable_calls =
        (dependency_tracker.stateAt dependency_tracker.sample_state
          dependency_tracker.overflow_events 0).taint2.enable_calls := by decide
    have hcall2 : (dependency_tracker.stateAt dependency_tracker.sample_state
          dependency_tracker.overflow_events 1).taint2.enable_calls =
        (dependency_tracker.stateAt dependency_tracker.sample_state
          dependency_tracker.overflow_events 0).taint2.enable_calls + 1 := hcall
    rw [hno] at hcall2
    exact absurd hcall2 (Nat.ne_of_lt (Nat.lt_succ_self _))

/-! ## Labelling and querying a buffer (C2, C3, C4) -/

namespace dependency_tracker

theorem hit_succ_of_fail (cpu : CPUState) (vAddr n p : Nat)
    (h : cpu.virt_to_phys (vaddr_add vAddr n) = HWADDR_INVALID) :
    hit cpu vAddr (n + 1) p ↔ hit cpu vAddr n p := by
  constructor
  · rintro ⟨i, hi, ht, hp⟩
    rcases Nat.lt_succ_iff_lt_or_eq.mp hi with h1 | h1
    · exact ⟨i, h1, ht, hp⟩
    · subst h1; exact absurd h ht
  · rintro ⟨i, hi, ht, hp⟩
    exact ⟨i, Nat.lt_succ_of_lt hi, ht, hp⟩

theorem hit_succ_of_ok (cpu : CPUState) (vAddr n p : Nat)
    (h : cpu.virt_to_phys (vaddr_add vAddr n) ≠ HWADDR_INVALID) :
    hit cpu vAddr (n + 1) p ↔ (hit cpu vAddr n p ∨ cpu.virt_to_phys (vaddr_add vAddr n) = p) := by
  constructor
  · rintro ⟨i, hi, ht, hp⟩
    rcases Nat.lt_succ_iff_lt_or_eq.mp hi with h1 | h1
    · exact Or.inl ⟨i, h1, ht, hp⟩
    · subst h1; exact Or.inr hp
  · rintro (⟨i, hi, ht, hp⟩ | hp)
    · exact ⟨i, Nat.lt_succ_of_lt hi, ht, hp⟩
    · exact ⟨n, Nat.lt_succ_self n, h, hp⟩

open Classical in
theorem label_loop (cpu : CPUState) (vAddr label : Nat) (t : Taint2) (n : Nat) :
    let r := (List.range n).foldl
      (fun (acc : Nat × Taint2) (i : Nat) =>
        let pAddr := cpu.virt_to_phys (vaddr_add vAddr i)
        if pAddr = HWADDR_INVALID then acc
        else (acc.1 + 1, taint2_label_ram acc.2 pAddr label))
      (0, t)
    r.1 = ((Finset.range n).filter (fun i => translates cpu vAddr i)).card ∧
      (∀ p, r.2.ram p = if hit cpu vAddr n p then insert label (t.ram p) else t.ram p) ∧
      r.2.enabled = t.enabled ∧ r.2.enable_calls = t.enable_calls := by
  induction n with
  | zero =>
    refine ⟨by simp, ?_, rfl, rfl⟩
    intro p
    have : ¬ hit cpu vAddr 0 p := by rintro ⟨i, hi, _⟩; exact absurd hi (Nat.not_lt_zero i)
    simp [this]
  | succ n ih =>
    simp only [List.range_succ, List.foldl_append, List.foldl_cons, List.foldl_nil]
    obtain ⟨ih1, ih2, ih3, ih4⟩ := ih
    by_cases h : cpu.virt_to_phys (vaddr_add vAddr n) = HWADDR_INVALID
    · simp only [h, if_true]
      refine ⟨?_, ?_, ih3, ih4⟩
      · rw [ih1, Finset.range_succ, Finset.filter_insert]
        have : ¬ translates cpu vAddr n := fun ht => ht h
        simp [this]
      · intro p
        rw [ih2 p]
        simp only [hit_succ_of_fail cpu vAddr n p h]
    · simp only [h, if_false]
      refine ⟨?_, ?_, ih3, ih4⟩
      · rw [ih1, Finset.range_succ, Finset.filter_insert]
        have : translates cpu vAddr n := h
        simp [this]
      · intro p
        simp only [taint2_label_ram] at ih2 ⊢
        by_cases hp : p = cpu.virt_to_phys (vaddr_add vAddr n)
        · subst hp
          rw [Function.update_same, ih2]
          have h1 : hit cpu vAddr (n + 1) (cpu.virt_to_phys (vaddr_add vAddr n)) :=
            (hit_succ_of_ok cpu vAddr n _ h).mpr (Or.inr rfl)
          rw [if_pos h1]
          split <;> simp
        · rw [Function.update_noteq hp, ih2]
          have h1 : hit cpu vAddr (n + 1) p ↔ hit cpu vAddr n p := by
            rw [hit_succ_of_ok cpu vAddr n p h]
            constructor
            · rintro (h2 | h2)
              · exact h2
              · exact absurd h2.symm hp
            · exact Or.inl
          simp only [h1]

theorem query_loop (cpu : CPUState) (vAddr : Nat) (t : Taint2) (n i : Nat) :
    (List.range n).foldl
      (fun (map : Nat → Option (Finset Nat)) (i : Nat) =>
        let pAddr := cpu.virt_to_phys (vaddr_add vAddr i)
        if pAddr = HWADDR_INVALID then map
        else
          let labelSet := taint2_query_set_ram t pAddr
          Function.update map i (some labelSet))
      (fun _ => none) i =
      if i < n ∧ translates cpu vAddr i then some (taint2_query_set_ram t (phys cpu vAddr i))
      else none := by
  induction n with
  | zero => simp
  | succ n ih =>
    simp only [List.range_succ, List.foldl_append, List.foldl_cons, List.foldl_nil]
    by_cases h : cpu.virt_to_phys (vaddr_add vAddr n) = HWADDR_INVALID
    · simp only [h, if_true]
      rw [ih]
      by_cases hin : i = n
      · subst hin
        have : ¬ translates cpu vAddr i := fun ht => ht h
        simp [this]
      · have : i < n + 1 ↔ i < n := by omega
        simp only [this]
    · simp only [h, if_false]
      by_cases hin : i = n
      · subst hin
        have : translates cpu vAddr i := h
        simp [this, phys]
      · rw [Function.update_noteq hin, ih]
        have : i < n + 1 ↔ i < n := by omega
        simp only [this]

open Classical in
theorem labelBufferContents_on (cpu : CPUState) (vAddr length label : Nat) (t : Taint2)
    (h : taint2_enabled t = true) :
    (labelBufferContents cpu vAddr length label t).1 =
        ((Finset.range length).filter (fun i => translates cpu vAddr i)).card ∧
      (∀ p, (labelBufferContents cpu vAddr length label t).2.ram p =
        if hit cpu vAddr length p then insert label (t.ram p) else t.ram p) ∧
      (labelBufferContents cpu vAddr length label t).2.enabled = t.enabled ∧
      (labelBufferContents cpu vAddr length label t).2.enable_calls = t.enable_calls := by
  have hl := label_loop cpu vAddr label t length
  simp only [labelBufferContents, h]
  exact hl

theorem queryBufferContents_on (cpu : CPUState) (vAddr length : Nat) (t : Taint2)
    (h : taint2_enabled t = true) (i : Nat) :
    queryBufferContents cpu vAddr length t i =
      if i < length ∧ translates cpu vAddr i then
        some (taint2_query_set_ram t (phys cpu vAddr i))
      else none := by
  have hq := query_loop cpu vAddr t length i
  simp only [queryBufferContents, h]
  exact hq

end dependency_tracker

/-- C2. `labelBufferContents(vAddr, length, label)` of `dependency_tracker`.
With the taint engine disabled it returns `0` and leaves the engine as it was.
With the engine enabled: the value returned is the number of `i < length` for
which `vAddr + i` translates; for every `i < length` that translates, the label
set at the physical address of `vAddr + i` is the former set with `label`
added (whether or not an earlier or later byte failed to translate); the label
set of every physical address that is not the address of such a byte is
unchanged; and the engine stays enabled. -/
theorem labelBufferContents_contract (cpu : CPUState) (vAddr length label : Nat)
    (t : Taint2) :
    (taint2_enabled t = false →
        dependency_tracker.labelBufferContents cpu vAddr length label t = (0, t)) ∧
      (taint2_enabled t = true →
        (dependency_tracker.labelBufferContents cpu vAddr length label t).1 =
            ((Finset.range length).filter (fun i => translates cpu vAddr i)).card ∧
          (∀ i, i < length → translates cpu vAddr i →
            (dependency_tracker.labelBufferContents cpu vAddr length label t).2.ram
                (phys cpu vAddr i) = insert label (t.ram (phys cpu vAddr i))) ∧
          (∀ p, ¬ hit cpu vAddr length p →
            (dependency_tracker.labelBufferContents cpu vAddr length label t).2.ram p =
              t.ram p) ∧
          taint2_enabled (dependency_tracker.labelBufferContents cpu vAddr length label t).2 =
            true) := by
  constructor
  · intro h
    simp [dependency_tracker.labelBufferContents, h]
  · intro h
    have hl := dependency_tracker.labelBufferContents_on cpu vAddr length label t h
    refine ⟨hl.1, ?_, ?_, ?_⟩
    · intro i hi ht
      have := hl.2.1 (phys cpu vAddr i)
      rw [if_pos ⟨i, hi, ht, rfl⟩] at this
      exact this
    · intro p hp
      have := hl.2.1 p
      rw [if_neg hp] at this
      exact this
    · exact hl.2.2.1.trans h

/-- C2, at a buffer of four bytes whose second byte does not translate: three
bytes are labelled, the byte after the failed one among them. -/
theorem labelBufferContents_contract_witness :
    taint2_enabled taint2_on = true ∧
      (dependency_tracker.labelBufferContents cpu_hole 4096 4 7 taint2_on).1 = 3 ∧
      ¬ translates cpu_hole 4096 1 ∧
      (dependency_tracker.labelBufferContents cpu_hole 4096 4 7 taint2_on).2.ram
        (phys cpu_hole 4096 2) = insert 7 (taint2_on.ram (phys cpu_hole 4096 2)) ∧
      dependency_tracker.labelBufferContents cpu_hole 4096 4 7 taint2_off = (0, taint2_off) :=
  ⟨rfl, by decide, by decide,
    ((labelBufferContents_contract cpu_hole 4096 4 7 taint2_on).2 rfl).2.1 2 (by decide)
      (by decide),
    (labelBufferContents_contract cpu_hole 4096 4 7 taint2_off).1 rfl⟩

/-- C3. `queryBufferContents(vAddr, length)` of `dependency_tracker`. With the
taint engine disabled the map returned has no key. With the engine enabled, the
map has key `i` exactly when `i < length` and `vAddr + i` translates, and the
value at such a key is the label set that the engine holds at the physical
address of `vAddr + i`; an offset whose translation failed is no key. -/
theorem queryBufferContents_contract (cpu : CPUState) (vAddr length : Nat) (t : Taint2) :
    (taint2_enabled t = false →
        ∀ i, dependency_tracker.queryBufferContents cpu vAddr length t i = none) ∧
      (taint2_enabled t = true →
        (∀ i, (dependency_tracker.queryBufferContents cpu vAddr length t i).isSome = true ↔
            (i < length ∧ translates cpu vAddr i)) ∧
          (∀ i, i < length → translates cpu vAddr i →
            dependency_tracker.queryBufferContents cpu vAddr length t i =
              some (taint2_query_set_ram t (phys cpu vAddr i))) ∧
          (∀ i, ¬ translates cpu vAddr i →
            dependency_tracker.queryBufferContents cpu vAddr length t i = none)) := by
  constructor
  · intro h i
    simp [dependency_tracker.queryBufferContents, h]
  · intro h
    have hq := dependency_tracker.queryBufferContents_on cpu vAddr length t h
    refine ⟨?_, ?_, ?_⟩
    · intro i
      rw [hq i]
      by_cases hc : i < length ∧ translates cpu vAddr i <;> simp [hc]
    · intro i hi ht
      rw [hq i, if_pos ⟨hi, ht⟩]
    · intro i ht
      rw [hq i, if_neg (fun hc => ht hc.2)]

/-- C3, at a buffer of four bytes whose second byte does not translate. -/
theorem queryBufferContents_contract_witness :
    taint2_enabled taint2_on = true ∧
      dependency_tracker.queryBufferContents cpu_hole 4096 4 taint2_on 1 = none ∧
      dependency_tracker.queryBufferContents cpu_hole 4096 4 taint2_on 2 =
        some (taint2_query_set_ram taint2_on (phys cpu_hole 4096 2)) ∧
      dependency_tracker.queryBufferContents cpu_hole 4096 4 taint2_off 2 = none :=
  ⟨rfl,
    ((queryBufferContents_contract cpu_hole 4096 4 taint2_on).2 rfl).2.2 1 (by decide),
    ((queryBufferContents_contract cpu_hole 4096 4 taint2_on).2 rfl).2.1 2 (by decide)
      (by decide),
    (queryBufferContents_contract cpu_hole 4096 4 taint2_off).1 rfl 2⟩

/-- C4. With the taint engine enabled, `labelBufferContents(vAddr, length,
label)` followed at once by `queryBufferContents(vAddr, length)` under the same
translation yields a map in which every offset `i < length` whose address
translates is a key whose label set contains `label`, and in which no offset
whose translation fails is a key. -/
theorem label_then_query (cpu : CPUState) (vAddr length label : Nat) (t : Taint2)
    (h : taint2_enabled t = true) :
    (∀ i, i < length → translates cpu vAddr i →
        ∃ labels,
          dependency_tracker.queryBufferContents cpu vAddr length
              (dependency_tracker.labelBufferContents cpu vAddr length label t).2 i =
            some labels ∧ label ∈ labels) ∧
      (∀ i, ¬ translates cpu vAddr i →
        dependency_tracker.queryBufferContents cpu vAddr length
            (dependency_tracker.labelBufferContents cpu vAddr length label t).2 i = none) := by
  have hl := dependency_tracker.labelBufferContents_on cpu vAddr length label t h
  have hen : taint2_enabled
      (dependency_tracker.labelBufferContents cpu vAddr length label t).2 = true :=
    hl.2.2.1.trans h
  constructor
  · intro i hi ht
    refine ⟨taint2_query_set_ram
      (dependency_tracker.labelBufferContents cpu vAddr length label t).2 (phys cpu vAddr i),
      ?_, ?_⟩
    · rw [dependency_tracker.queryBufferContents_on cpu vAddr length _ hen i,
        if_pos ⟨hi, ht⟩]
    · simp only [taint2_query_set_ram]
      rw [hl.2.1 (phys cpu vAddr i), if_pos ⟨i, hi, ht, rfl⟩]
      exact Finset.mem_insert_self _ _
  · intro i ht
    rw [dependency_tracker.queryBufferContents_on cpu vAddr length _ hen i,
      if_neg (fun hc => ht hc.2)]

/-- C4, at a buffer of four bytes whose second byte does not translate. -/
theorem label_then_query_witness :
    taint2_enabled taint2_on = true ∧
      ((∀ i, i < 4 → translates cpu_hole 4096 i →
          ∃ labels,
            dependency_tracker.queryBufferContents cpu_hole 4096 4
                (dependency_tracker.labelBufferContents cpu_hole 4096 4 7 taint2_on).2 i =
              some labels ∧ 7 ∈ labels) ∧
        (∀ i, ¬ translates cpu_hole 4096 i →
          dependency_tracker.queryBufferContents cpu_hole 4096 4
              (dependency_tracker.labelBufferContents cpu_hole 4096 4 7 taint2_on).2 i =
            none)) ∧
      translates cpu_hole 4096 0 ∧ ¬ translates cpu_hole 4096 1 :=
  ⟨rfl, label_then_query cpu_hole 4096 4 7 taint2_on rfl, by decide, by decide⟩

/-! ## Connect events (C5, C6, C7) -/

namespace dependency_network

theorem Dependency_Network_Target.eq_iff (a b : Dependency_Network_Target) :
    a.eq b = true ↔ a = b := by
  cases a
  cases b
  simp [Dependency_Network_Target.eq]

theorem connect_targets (cpu : CPUState) (arguments : Nat → Nat) (addr : sockaddr) (s : State)
    (h : addr.sa_family = AF_INET ∨ addr.sa_family = AF_INET6) :
    (on_socketcall_connect_return cpu arguments addr s).targets =
      Function.update s.targets (cpu.asid, arguments 0)
        (some { ip := addr.ntop, port := addr.sin_port }) := by
  unfold on_socketcall_connect_return
  dsimp only
  rw [if_pos h]
  split
  · rfl
  · split <;> rfl

theorem network_step_connect (cpu : CPUState) (arguments : Nat → Nat) (addr : sockaddr) (s : State) :
    step s (cpu, .sys_socketcall_return SYS_CONNECT arguments addr) =
      on_socketcall_connect_return cpu arguments addr s := by
  simp [step, on_socketcall_return]

end dependency_network

namespace dependency_tracker

theorem connect_networks (cpu : CPUState) (arguments : Nat → Nat) (addr : sockaddr) (s : State)
    (h : addr.sa_family = AF_INET ∨ addr.sa_family = AF_INET6) :
    (on_socketcall_connect_return cpu arguments addr s).dependency_tracker.networks =
      Function.update s.dependency_tracker.networks (cpu.asid, arguments 0)
        (some { ip := addr.ntop, port := addr.sin_port }) := by
  unfold on_socketcall_connect_return
  dsimp only
  rw [if_pos h]
  split
  · rfl
  · split <;> rfl

theorem tracker_step_connect (cpu : CPUState) (arguments : Nat → Nat) (addr : sockaddr) (s : State) :
    step s (cpu, .sys_socketcall_return SYS_CONNECT arguments addr) =
      on_socketcall_connect_return cpu arguments addr s := by
  simp [step, on_socketcall_return]

end dependency_tracker

/-- C5. A connect-return event with an IPv4 or IPv6 `sockaddr`, in address space
`cpu.asid` on handle `arguments[0]`, whose target `T` is the text of the address
with the port field as the handler reads it: afterwards the resolver table of
`dependency_network` (`targets`) and that of `dependency_tracker` (`networks`)
map the key (asid, fd) to `T`, whatever the key held before, and every other
key, the same fd in another address space included, holds what it held before.
A second connect on the same key to `T2` makes the key resolve to `T2`. -/
theorem connect_updates_only_its_key (cpu cpu2 : CPUState) (arguments arguments2 : Nat → Nat)
    (addr addr2 : sockaddr) (sN : dependency_network.State) (sT : dependency_tracker.State)
    (h : addr.sa_family = AF_INET ∨ addr.sa_family = AF_INET6)
    (h2 : addr2.sa_family = AF_INET ∨ addr2.sa_family = AF_INET6)
    (hasid : cpu2.asid = cpu.asid) (hfd : arguments2 0 = arguments 0) :
    ((dependency_network.step sN (cpu, .sys_socketcall_return SYS_CONNECT arguments addr)).targets
          (cpu.asid, arguments 0) = some { ip := addr.ntop, port := addr.sin_port } ∧
        (∀ asid fd, (asid, fd) ≠ (cpu.asid, arguments 0) →
          (dependency_network.step sN
              (cpu, .sys_socketcall_return SYS_CONNECT arguments addr)).targets (asid, fd) =
            sN.targets (asid, fd)) ∧
        (dependency_network.step
            (dependency_network.step sN (cpu, .sys_socketcall_return SYS_CONNECT arguments addr))
            (cpu2, .sys_socketcall_return SYS_CONNECT arguments2 addr2)).targets
          (cpu.asid, arguments 0) = some { ip := addr2.ntop, port := addr2.sin_port }) ∧
      ((dependency_tracker.step sT
            (cpu, .sys_socketcall_return SYS_CONNECT arguments addr)).dependency_tracker.networks
          (cpu.asid, arguments 0) = some { ip := addr.ntop, port := addr.sin_port } ∧
        (∀ asid fd, (asid, fd) ≠ (cpu.asid, arguments 0) →
          (dependency_tracker.step sT
              (cpu, .sys_socketcall_return SYS_CONNECT arguments addr)).dependency_tracker.networks
              (asid, fd) =
            sT.dependency_tracker.networks (asid, fd)) ∧
        (dependency_tracker.step
            (dependency_tracker.step sT (cpu, .sys_socketcall_return SYS_CONNECT arguments addr))
            (cpu2, .sys_socketcall_return SYS_CONNECT arguments2 addr2)).dependency_tracker.networks
          (cpu.asid, arguments 0) = some { ip := addr2.ntop, port := addr2.sin_port }) := by
  refine ⟨⟨?_, ?_, ?_⟩, ?_, ?_, ?_⟩
  · rw [dependency_network.network_step_connect, dependency_network.connect_targets _ _ _ _ h]
    exact Function.update_same _ _ _
  · intro asid fd hne
    rw [dependency_network.network_step_connect, dependency_network.connect_targets _ _ _ _ h]
    exact Function.update_noteq hne _ _
  · rw [dependency_network.network_step_connect, dependency_network.network_step_connect,
      dependency_network.connect_targets _ _ _ _ h2, hasid, hfd]
    exact Function.update_same _ _ _
  · rw [dependency_tracker.tracker_step_connect, dependency_tracker.connect_networks _ _ _ _ h]
    exact Function.update_same _ _ _
  · intro asid fd hne
    rw [dependency_tracker.tracker_step_connect, dependency_tracker.connect_networks _ _ _ _ h]
    exact Function.update_noteq hne _ _
  · rw [dependency_tracker.tracker_step_connect, dependency_tracker.tracker_step_connect,
      dependency_tracker.connect_networks _ _ _ _ h2, hasid, hfd]
    exact Function.update_same _ _ _

/-- C5, at handle 7 of address space 1: connected to the source `1.2.3.4` port
field `80` and then to `9.9.9.9` port field `22`, the key resolves to the
latter in both plugins. -/
theorem connect_updates_only_its_key_witness :
    ((inet_addr_of "1.2.3.4" 80).sa_family = AF_INET ∨
        (inet_addr_of "1.2.3.4" 80).sa_family = AF_INET6) ∧
      ((inet_addr_of "9.9.9.9" 22).sa_family = AF_INET ∨
        (inet_addr_of "9.9.9.9" 22).sa_family = AF_INET6) ∧
      (dependency_network.step
          (dependency_network.step dependency_network.sample_state
            (cpu_at 1 5, .sys_socketcall_return SYS_CONNECT (words 7 0 0)
              (inet_addr_of "1.2.3.4" 80)))
          (cpu_at 1 9, .sys_socketcall_return SYS_CONNECT (words 7 0 0)
            (inet_addr_of "9.9.9.9" 22))).targets (1, 7) =
        some { ip := "9.9.9.9", port := 22 } ∧
      (dependency_tracker.step
          (dependency_tracker.step dependency_tracker.sample_state
            (cpu_at 1 5, .sys_socketcall_return SYS_CONNECT (words 7 0 0)
              (inet_addr_of "1.2.3.4" 80)))
          (cpu_at 1 9, .sys_socketcall_return SYS_CONNECT (words 7 0 0)
            (inet_addr_of "9.9.9.9" 22))).dependency_tracker.networks (1, 7) =
        some { ip := "9.9.9.9", port := 22 } :=
  ⟨Or.inl rfl, Or.inl rfl,
    (connect_updates_only_its_key (cpu_at 1 5) (cpu_at 1 9) (words 7 0 0) (words 7 0 0)
      (inet_addr_of "1.2.3.4" 80) (inet_addr_of "9.9.9.9" 22) dependency_network.sample_state
      dependency_tracker.sample_state (Or.inl rfl) (Or.inl rfl) rfl rfl).1.2.2,
    (connect_updates_only_its_key (cpu_at 1 5) (cpu_at 1 9) (words 7 0 0) (words 7 0 0)
      (inet_addr_of "1.2.3.4" 80) (inet_addr_of "9.9.9.9" 22) dependency_network.sample_state
      dependency_tracker.sample_state (Or.inl rfl) (Or.inl rfl) rfl rfl).2.2.2⟩

/-- C6. In `dependency_network`, a connect-return event with a supported
address family: if the target it resolves equals the configured source or the
configured sink, `enableTaintAt` afterwards is the instruction count of the
event; if it equals neither, `enableTaintAt` is unchanged. -/
theorem connect_arms_threshold (cpu : CPUState) (arguments : Nat → Nat) (addr : sockaddr)
    (s : dependency_network.State)
    (h : addr.sa_family = AF_INET ∨ addr.sa_family = AF_INET6) :
    ((({ ip := addr.ntop, port := addr.sin_port } : dependency_network.Dependency_Network_Target)
            = s.dependency_network.source ∨
          ({ ip := addr.ntop, port := addr.sin_port } :
            dependency_network.Dependency_Network_Target) = s.dependency_network.sink) →
        (dependency_network.step s
            (cpu, .sys_socketcall_return SYS_CONNECT arguments addr)).dependency_network.enableTaintAt
          = cpu.instr_count) ∧
      ((({ ip := addr.ntop, port := addr.sin_port } :
            dependency_network.Dependency_Network_Target) ≠ s.dependency_network.source ∧
          ({ ip := addr.ntop, port := addr.sin_port } :
            dependency_network.Dependency_Network_Target) ≠ s.dependency_network.sink) →
        (dependency_network.step s
            (cpu, .sys_socketcall_return SYS_CONNECT arguments addr)).dependency_network.enableTaintAt
          = s.dependency_network.enableTaintAt) := by
  rw [dependency_network.network_step_connect]
  unfold dependency_network.on_socketcall_connect_return
  dsimp only
  rw [if_pos h]
  constructor
  · intro hor
    by_cases hs : ({ ip := addr.ntop, port := addr.sin_port } :
        dependency_network.Dependency_Network_Target) = s.dependency_network.source
    · rw [if_pos ((dependency_network.Dependency_Network_Target.eq_iff _ _).mpr hs)]
    · have hk := hor.resolve_left hs
      rw [if_neg (fun hc => hs ((dependency_network.Dependency_Network_Target.eq_iff _ _).mp hc)),
        if_pos ((dependency_network.Dependency_Network_Target.eq_iff _ _).mpr hk)]
  · rintro ⟨hs, hk⟩
    rw [if_neg (fun hc => hs ((dependency_network.Dependency_Network_Target.eq_iff _ _).mp hc)),
      if_neg (fun hc => hk ((dependency_network.Dependency_Network_Target.eq_iff _ _).mp hc))]

/-- C6, at the sample state (threshold `1000`): a connect that resolves the
sink at count 10 sets the threshold to 10, a connect that resolves `9.9.9.9`
port field `22` leaves it at `1000`. -/
theorem connect_arms_threshold_witness :
    ((inet_addr_of "5.6.7.8" 443).sa_family = AF_INET ∨
        (inet_addr_of "5.6.7.8" 443).sa_family = AF_INET6) ∧
      (dependency_network.step dependency_network.sample_state
          (cpu_at 1 10, .sys_socketcall_return SYS_CONNECT (words 4 0 0)
            (inet_addr_of "5.6.7.8" 443))).dependency_network.enableTaintAt = 10 ∧
      (dependency_network.step dependency_network.sample_state
          (cpu_at 1 10, .sys_socketcall_return SYS_CONNECT (words 4 0 0)
            (inet_addr_of "9.9.9.9" 22))).dependency_network.enableTaintAt = 1000 :=
  ⟨Or.inl rfl,
    (connect_arms_threshold (cpu_at 1 10) (words 4 0 0) (inet_addr_of "5.6.7.8" 443)
      dependency_network.sample_state (Or.inl rfl)).1 (Or.inr rfl),
    (connect_arms_threshold (cpu_at 1 10) (words 4 0 0) (inet_addr_of "9.9.9.9" 22)
      dependency_network.sample_state (Or.inl rfl)).2 ⟨by decide, by decide⟩⟩

/-- C7, refuted at the sample state of `dependency_tracker` (threshold `6`): a
connect-return event at instruction count 5 with family `AF_INET` whose target
is the catalogued source leaves `enableTaintAt` at `6`, not at `5`. -/
theorem tracker_connect_does_not_arm :
    ((inet_addr_of "1.2.3.4" 80).sa_family = AF_INET ∨
        (inet_addr_of "1.2.3.4" 80).sa_family = AF_INET6) ∧
      dependency_tracker.isSource dependency_tracker.sample_state.dependency_tracker
        (.network { ip := (inet_addr_of "1.2.3.4" 80).ntop,
                    port := (inet_addr_of "1.2.3.4" 80).sin_port }) = true ∧
      (cpu_at 1 5).instr_count = 5 ∧
      (dependency_tracker.step dependency_tracker.sample_state
          (cpu_at 1 5, .sys_socketcall_return SYS_CONNECT (words 3 0 0)
            (inet_addr_of "1.2.3.4" 80))).dependency_tracker.enableTaintAt = 6 ∧
      (dependency_tracker.step dependency_tracker.sample_state
          (cpu_at 1 5, .sys_socketcall_return SYS_CONNECT (words 3 0 0)
            (inet_addr_of "1.2.3.4" 80))).dependency_tracker.enableTaintAt ≠
        (cpu_at 1 5).instr_count := by
  refine ⟨Or.inl rfl, by decide, rfl, by decide, by decide⟩

/-- C7, amended. In `dependency_tracker`, a connect-return event with a
supported address family whose target equals the target of some catalogued
source or some catalogued sink records the target under the key (asid, fd) and
leaves the threshold `enableTaintAt` at the value it had before the event. -/
theorem tracker_connect_keeps_threshold (cpu : CPUState) (arguments : Nat → Nat)
    (addr : sockaddr) (s : dependency_tracker.State)
    (h : addr.sa_family = AF_INET ∨ addr.sa_family = AF_INET6)
    (_hcat : dependency_tracker.isSource s.dependency_tracker
          (.network { ip := addr.ntop, port := addr.sin_port }) = true ∨
        dependency_tracker.isSink s.dependency_tracker
          (.network { ip := addr.ntop, port := addr.sin_port }) = true) :
    (dependency_tracker.step s
          (cpu, .sys_socketcall_return SYS_CONNECT arguments addr)).dependency_tracker.networks
        (cpu.asid, arguments 0) = some { ip := addr.ntop, port := addr.sin_port } ∧
      (dependency_tracker.step s
          (cpu, .sys_socketcall_return SYS_CONNECT arguments addr)).dependency_tracker.enableTaintAt
        = s.dependency_tracker.enableTaintAt := by
  rw [dependency_tracker.tracker_step_connect]
  refine ⟨?_, (dependency_tracker.on_socketcall_connect_return_frame cpu arguments addr s).2⟩
  rw [dependency_tracker.connect_networks _ _ _ _ h]
  exact Function.update_same _ _ _

/-- C7 amended, at the sample state: the connect to the catalogued source at
count 5 records the target and leaves the threshold at `6`. -/
theorem tracker_connect_keeps_threshold_witness :
    dependency_tracker.isSource dependency_tracker.sample_state.dependency_tracker
        (.network { ip := (inet_addr_of "1.2.3.4" 80).ntop,
                    port := (inet_addr_of "1.2.3.4" 80).sin_port }) = true ∧
      (dependency_tracker.step dependency_tracker.sample_state
            (cpu_at 1 5, .sys_socketcall_return SYS_CONNECT (words 3 0 0)
              (inet_addr_of "1.2.3.4" 80))).dependency_tracker.networks
          ((cpu_at 1 5).asid, words 3 0 0 0) = some { ip := "1.2.3.4", port := 80 } ∧
      (dependency_tracker.step dependency_tracker.sample_state
            (cpu_at 1 5, .sys_socketcall_return SYS_CONNECT (words 3 0 0)
              (inet_addr_of "1.2.3.4" 80))).dependency_tracker.enableTaintAt =
        dependency_tracker.sample_state.dependency_tracker.enableTaintAt :=
  ⟨by decide,
    tracker_connect_keeps_threshold (cpu_at 1 5) (words 3 0 0) (inet_addr_of "1.2.3.4" 80)
      dependency_tracker.sample_state (Or.inl rfl) (Or.inl (by decide))⟩

/-! ## Recoverable conditions (C8) -/

/-- C8. In `dependency_network`, an event that meets a recoverable condition
leaves the whole state (resolver table, `enableTaintAt`, `sawReadOfSource`,
`sawWriteOfSink`, `dependency`, the taint engine) as it was, so that no
resolver entry is created: (a) a read, pread64, write or pwrite64 return on
handle `fd`, and a send, sendto, recv or recvfrom return whose first argument
word is `fd`, when the key (asid, fd) has no resolver entry; (b) a connect
return whose `sockaddr` family is neither `AF_INET` nor `AF_INET6`. -/
theorem recoverable_conditions_change_nothing (cpu : CPUState)
    (s : dependency_network.State) (fd buffer count : Nat) (arguments : Nat → Nat)
    (addr : sockaddr) :
    (s.targets (cpu.asid, fd) = none →
        dependency_network.step s (cpu, .sys_read_return fd buffer count) = s ∧
          dependency_network.step s (cpu, .sys_pread64_return fd buffer count) = s ∧
          dependency_network.step s (cpu, .sys_write_return fd buffer count) = s ∧
          dependency_network.step s (cpu, .sys_pwrite64_return fd buffer count) = s) ∧
      (s.targets (cpu.asid, arguments 0) = none →
        dependency_network.step s (cpu, .sys_socketcall_return SYS_SEND arguments addr) = s ∧
          dependency_network.step s (cpu, .sys_socketcall_return SYS_SENDTO arguments addr) = s ∧
          dependency_network.step s (cpu, .sys_socketcall_return SYS_RECV arguments addr) = s ∧
          dependency_network.step s (cpu, .sys_socketcall_return SYS_RECVFROM arguments addr) =
            s) ∧
      ((addr.sa_family ≠ AF_INET ∧ addr.sa_family ≠ AF_INET6) →
        dependency_network.step s (cpu, .sys_socketcall_return SYS_CONNECT arguments addr) = s ∧
          (dependency_network.step s
            (cpu, .sys_socketcall_return SYS_CONNECT arguments addr)).targets
              (cpu.asid, arguments 0) = s.targets (cpu.asid, arguments 0)) := by
  refine ⟨?_, ?_, ?_⟩
  · intro hkey
    refine ⟨?_, ?_, ?_, ?_⟩
    · simp [dependency_network.step, dependency_network.on_read_return,
        dependency_network.on_pread64_return, hkey]
    · simp [dependency_network.step, dependency_network.on_pread64_return, hkey]
    · simp [dependency_network.step, dependency_network.on_write_return,
        dependency_network.on_pwrite64_return, hkey]
    · simp [dependency_network.step, dependency_network.on_pwrite64_return, hkey]
  · intro hkey2
    refine ⟨?_, ?_, ?_, ?_⟩
    · simp [dependency_network.step, dependency_network.on_socketcall_return,
        dependency_network.on_socketcall_send_return, SYS_SEND, SYS_CONNECT, hkey2]
    · simp [dependency_network.step, dependency_network.on_socketcall_return,
        dependency_network.on_socketcall_send_return, SYS_SEND, SYS_SENDTO, SYS_CONNECT, hkey2]
    · simp [dependency_network.step, dependency_network.on_socketcall_return,
        dependency_network.on_socketcall_recv_return, SYS_SEND, SYS_SENDTO, SYS_RECV,
        SYS_CONNECT, hkey2]
    · simp [dependency_network.step, dependency_network.on_socketcall_return,
        dependency_network.on_socketcall_recv_return, SYS_SEND, SYS_SENDTO, SYS_RECV,
        SYS_RECVFROM, SYS_CONNECT, hkey2]
  · intro hfam
    have hconn : dependency_network.step s
        (cpu, .sys_socketcall_return SYS_CONNECT arguments addr) = s := by
      rw [dependency_network.network_step_connect]
      unfold dependency_network.on_socketcall_connect_return
      dsimp only
      rw [if_neg (fun hc => hc.elim hfam.1 hfam.2)]
    exact ⟨hconn, by rw [hconn]⟩

/-- C8, at the sample state, in which no key has an entry, for handle 9 of
address space 1, and at a state in which handle 9 is connected, for a connect
with family 1 (`AF_UNIX`): the read, the recv and the connect leave the state
as it was, and the entry of the connected handle stays. -/
theorem recoverable_conditions_change_nothing_witness :
    dependency_network.sample_state.targets ((cpu_at 1 20).asid, 9) = none ∧
      (unix_addr.sa_family ≠ AF_INET ∧ unix_addr.sa_family ≠ AF_INET6) ∧
      dependency_network.step dependency_network.sample_state
          (cpu_at 1 20, .sys_read_return 9 4096 16) = dependency_network.sample_state ∧
      dependency_network.step dependency_network.sample_state
          (cpu_at 1 20, .sys_socketcall_return SYS_RECV (words 9 4096 16) unix_addr) =
        dependency_network.sample_state ∧
      dependency_network.step
          (dependency_network.step dependency_network.sample_state
            (cpu_at 1 5, .sys_socketcall_return SYS_CONNECT (words 9 0 0)
              (inet_addr_of "1.2.3.4" 80)))
          (cpu_at 1 20, .sys_socketcall_return SYS_CONNECT (words 9 0 0) unix_addr) =
        dependency_network.step dependency_network.sample_state
          (cpu_at 1 5, .sys_socketcall_return SYS_CONNECT (words 9 0 0)
            (inet_addr_of "1.2.3.4" 80)) :=
  ⟨rfl, ⟨by decide, by decide⟩,
    ((recoverable_conditions_change_nothing (cpu_at 1 20) dependency_network.sample_state 9 4096
      16 (words 9 4096 16) unix_addr).1 rfl).1,
    ((recoverable_conditions_change_nothing (cpu_at 1 20) dependency_network.sample_state 9 4096
      16 (words 9 4096 16) unix_addr).2.1 rfl).2.2.1,
    ((recoverable_conditions_change_nothing (cpu_at 1 20)
      (dependency_network.step dependency_network.sample_state
        (cpu_at 1 5, .sys_socketcall_return SYS_CONNECT (words 9 0 0)
          (inet_addr_of "1.2.3.4" 80)))
      9 4096 16 (words 9 0 0) unix_addr).2.2 ⟨by decide, by decide⟩).1⟩

/-! ## Catalogue loading (C9) -/

namespace dependency_tracker

theorem parseTargets_body (stoi : String → Except stoi_error Int) (acc : List Target × Nat)
    (line : List String) :
    (let lineNumber := acc.2 + 1
      if line.length = 2 ∧ line.getD 0 "" = "f" then
        let fileName := line.getD 1 ""
        (acc.1 ++ [Target.file { path := fileName }], lineNumber)
      else if line.length = 3 ∧ line.getD 0 "" = "n" then
        let ip := line.getD 1 ""
        match stoi (line.getD 2 "") with
        | .error _ => (acc.1, lineNumber)
        | .ok v => (acc.1 ++ [Target.network { ip := ip, port := (v % 65536).toNat }], lineNumber)
      else (acc.1, lineNumber)) =
      (acc.1 ++ (spec_row_target stoi line).toList, acc.2 + 1) := by
  match line with
  | [] => simp [spec_row_target]
  | [a] => simp [spec_row_target]
  | [a, b] =>
    by_cases h : a = "f"
    · simp [spec_row_target, h]
    · simp [spec_row_target, h]
  | [a, b, c] =>
    by_cases h : a = "n"
    · cases hs : stoi c <;> simp [spec_row_target, h, hs]
    · simp [spec_row_target, h]
  | a :: b :: c :: d :: rest => simp [spec_row_target]

theorem parseTargets_loop (stoi : String → Except stoi_error Int) (lines : List (List String))
    (acc : List Target × Nat) :
    lines.foldl
      (fun (acc : List Target × Nat) (line : List String) =>
        let lineNumber := acc.2 + 1
        if line.length = 2 ∧ line.getD 0 "" = "f" then
          let fileName := line.getD 1 ""
          (acc.1 ++ [Target.file { path := fileName }], lineNumber)
        else if line.length = 3 ∧ line.getD 0 "" = "n" then
          let ip := line.getD 1 ""
          match stoi (line.getD 2 "") with
          | .error _ => (acc.1, lineNumber)
          | .ok v =>
            (acc.1 ++ [Target.network { ip := ip, port := (v % 65536).toNat }], lineNumber)
        else (acc.1, lineNumber))
      acc = (acc.1 ++ lines.filterMap (spec_row_target stoi), acc.2 + lines.length) := by
  induction lines generalizing acc with
  | nil => simp
  | cons line rest ih =>
    rw [List.foldl_cons, parseTargets_body stoi acc line, ih]
    cases h : spec_row_target stoi line
    · simp [List.filterMap_cons, h]; omega
    · simp [List.filterMap_cons, h]; omega

theorem parseTargets_eq (stoi : String → Except stoi_error Int) (lines : List (List String)) :
    parseTargets stoi lines = lines.filterMap (spec_row_target stoi) := by
  unfold parseTargets
  rw [parseTargets_loop]
  simp

theorem init_sources_loop (ptrs : List Target) (n : Nat) (hn : n ≤ ptrs.length) :
    ((List.range n).foldl
        (fun (sources : List TargetSource) (i : Nat) =>
          match ptrs[i]? with
          | some t => sources ++ [{ target := t, index := i }]
          | none => sources)
        []).map TargetSource.target = ptrs.take n ∧
      ((List.range n).foldl
        (fun (sources : List TargetSource) (i : Nat) =>
          match ptrs[i]? with
          | some t => sources ++ [{ target := t, index := i }]
          | none => sources)
        []).map TargetSource.index = List.range n := by
  induction n with
  | zero => simp
  | succ n ih =>
    have hlt : n < ptrs.length := hn
    obtain ⟨ih1, ih2⟩ := ih (Nat.le_of_lt hlt)
    have hget : ptrs[n]? = some ptrs[n] := List.getElem?_eq_getElem hlt
    simp only [List.range_succ, List.foldl_append, List.foldl_cons, List.foldl_nil, hget,
      List.map_append, List.map_cons, List.map_nil, ih1, ih2]
    rw [List.take_succ, hget]
    simp

theorem init_sinks_loop (ptrs : List Target) (n : Nat) (hn : n ≤ ptrs.length) :
    ((List.range n).foldl
        (fun (sinks : List TargetSink) (i : Nat) =>
          match ptrs[i]? with
          | some t => sinks ++ [{ target := t, index := i }]
          | none => sinks)
        []).map TargetSink.target = ptrs.take n ∧
      ((List.range n).foldl
        (fun (sinks : List TargetSink) (i : Nat) =>
          match ptrs[i]? with
          | some t => sinks ++ [{ target := t, index := i }]
          | none => sinks)
        []).map TargetSink.index = List.range n := by
  induction n with
  | zero => simp
  | succ n ih =>
    have hlt : n < ptrs.length := hn
    obtain ⟨ih1, ih2⟩ := ih (Nat.le_of_lt hlt)
    have hget : ptrs[n]? = some ptrs[n] := List.getElem?_eq_getElem hlt
    simp only [List.range_succ, List.foldl_append, List.foldl_cons, List.foldl_nil, hget,
      List.map_append, List.map_cons, List.map_nil, ih1, ih2]
    rw [List.take_succ, hget]
    simp

theorem init_sources_eq (ptrs : List Target) :
    (init_sources ptrs).map TargetSource.target = ptrs ∧
      (init_sources ptrs).map TargetSource.index = List.range ptrs.length := by
  have h := init_sources_loop ptrs ptrs.length (Nat.le_refl _)
  rw [List.take_length] at h
  exact h

theorem init_sinks_eq (ptrs : List Target) :
    (init_sinks ptrs).map TargetSink.target = ptrs ∧
      (init_sinks ptrs).map TargetSink.index = List.range ptrs.length := by
  have h := init_sinks_loop ptrs ptrs.length (Nat.le_refl _)
  rw [List.take_length] at h
  exact h

end dependency_tracker

theorem index_of_map_range {α : Type} (l : List α) (index : α → Nat)
    (h : l.map index = List.range l.length) (k : Nat) (a : α) (hk : l[k]? = some a) :
    index a = k := by
  have h1 : (l.map index)[k]? = some (index a) := by
    rw [List.getElem?_map, hk]
    rfl
  rw [h] at h1
  have hlt : k < l.length := by
    by_contra hc
    rw [List.getElem?_eq_none (by simpa using hc)] at hk
    exact Option.noConfusion hk
  rw [List.getElem?_range hlt] at h1
  exact (Option.some.inj h1).symm

/-- C9. Catalogue loading (`parseTargets` followed by the index loop of
`init_plugin`), for every list of tokenised rows and every behaviour of `stoi`,
for the sources and for the sinks alike: the targets of the catalogue are
exactly the targets of the well-formed rows, in the order of the rows (a row
`f, path` gives a file target, a row `n, ip, port` whose port converts gives a
network target, a malformed row gives no entry and does not stop the rows after
it); the indices of the catalogue are `0, 1, 2, ...` in load order, so the
entry at position `k` carries index `k`; and taking a malformed row out of the
file changes nothing in the catalogue. -/
theorem catalogue_loading (stoi : String → Except dependency_tracker.stoi_error Int)
    (sourcesLines sinksLines : List (List String)) (debug : Bool) (enableTaintAt : Int) :
    ((dependency_tracker.init_plugin stoi sourcesLines sinksLines debug enableTaintAt).sources.map
          dependency_tracker.TargetSource.target =
        sourcesLines.filterMap (dependency_tracker.spec_row_target stoi) ∧
      (dependency_tracker.init_plugin stoi sourcesLines sinksLines debug enableTaintAt).sources.map
          dependency_tracker.TargetSource.index =
        List.range
          (dependency_tracker.init_plugin stoi sourcesLines sinksLines debug
            enableTaintAt).sources.length ∧
      (∀ (k : Nat) (src : dependency_tracker.TargetSource),
        (dependency_tracker.init_plugin stoi sourcesLines sinksLines debug
          enableTaintAt).sources[k]? = some src → src.index = k)) ∧
    ((dependency_tracker.init_plugin stoi sourcesLines sinksLines debug enableTaintAt).sinks.map
          dependency_tracker.TargetSink.target =
        sinksLines.filterMap (dependency_tracker.spec_row_target stoi) ∧
      (dependency_tracker.init_plugin stoi sourcesLines sinksLines debug enableTaintAt).sinks.map
          dependency_tracker.TargetSink.index =
        List.range
          (dependency_tracker.init_plugin stoi sourcesLines sinksLines debug
            enableTaintAt).sinks.length ∧
      (∀ (k : Nat) (snk : dependency_tracker.TargetSink),
        (dependency_tracker.init_plugin stoi sourcesLines sinksLines debug
          enableTaintAt).sinks[k]? = some snk → snk.index = k)) ∧
    (∀ before bad after, dependency_tracker.spec_row_target stoi bad = none →
      dependency_tracker.parseTargets stoi (before ++ bad :: after) =
        dependency_tracker.parseTargets stoi (before ++ after)) := by
  have hsrc := dependency_tracker.init_sources_eq (dependency_tracker.parseTargets stoi sourcesLines)
  have hsnk := dependency_tracker.init_sinks_eq (dependency_tracker.parseTargets stoi sinksLines)
  have hsrcI : (dependency_tracker.init_sources
        (dependency_tracker.parseTargets stoi sourcesLines)).map
        dependency_tracker.TargetSource.index =
      List.range (dependency_tracker.init_sources
        (dependency_tracker.parseTargets stoi sourcesLines)).length := by
    have hlen := congrArg List.length hsrc.1
    rw [List.length_map] at hlen
    rw [hsrc.2, hlen]
  have hsnkI : (dependency_tracker.init_sinks
        (dependency_tracker.parseTargets stoi sinksLines)).map
        dependency_tracker.TargetSink.index =
      List.range (dependency_tracker.init_sinks
        (dependency_tracker.parseTargets stoi sinksLines)).length := by
    have hlen := congrArg List.length hsnk.1
    rw [List.length_map] at hlen
    rw [hsnk.2, hlen]
  refine ⟨⟨?_, hsrcI, ?_⟩, ⟨?_, hsnkI, ?_⟩, ?_⟩
  · show (dependency_tracker.init_sources _).map _ = _
    rw [hsrc.1, dependency_tracker.parseTargets_eq]
  · intro k src hk
    exact index_of_map_range _ dependency_tracker.TargetSource.index hsrcI k src hk
  · show (dependency_tracker.init_sinks _).map _ = _
    rw [hsnk.1, dependency_tracker.parseTargets_eq]
  · intro k snk hk
    exact index_of_map_range _ dependency_tracker.TargetSink.index hsnkI k snk hk
  · intro before bad after hbad
    rw [dependency_tracker.parseTargets_eq, dependency_tracker.parseTargets_eq,
      List.filterMap_append, List.filterMap_append, List.filterMap_cons, hbad]

/-- The sample rows load as three sources, indexed 0, 1, 2: the three malformed
rows among them leave no entry. -/
theorem catalogue_loading_sample :
    (dependency_tracker.init_plugin dependency_tracker.sample_stoi
        dependency_tracker.sample_rows [] false 0).sources =
      [ { target := .file { path := "/etc/passwd" }, index := 0 },
        { target := .network { ip := "1.2.3.4", port := 80 }, index := 1 },
        { target := .network { ip := "5.6.7.8", port := 443 }, index := 2 } ] := by
  decide

/-! ## Scenario A (C10) -/

namespace dependency_network

theorem step_recv (cpu : CPUState) (arguments : Nat → Nat) (addr : sockaddr) (s : State) :
    step s (cpu, .sys_socketcall_return SYS_RECV arguments addr) =
      on_socketcall_recv_return cpu arguments s := by
  simp [step, on_socketcall_return, SYS_RECV, SYS_CONNECT, SYS_SEND, SYS_SENDTO]

theorem step_send (cpu : CPUState) (arguments : Nat → Nat) (addr : sockaddr) (s : State) :
    step s (cpu, .sys_socketcall_return SYS_SEND arguments addr) =
      on_socketcall_send_return cpu arguments s := by
  simp [step, on_socketcall_return, SYS_CONNECT, SYS_SEND]

theorem step_translate (cpu : CPUState) (s : State) :
    step s (cpu, .before_block_translate) = on_before_block_translate cpu s := rfl

theorem on_before_block_translate_frame (cpu : CPUState) (s : State) :
    (on_before_block_translate cpu s).dependency_network = s.dependency_network ∧
      (on_before_block_translate cpu s).targets = s.targets ∧
      (on_before_block_translate cpu s).sawReadOfSource = s.sawReadOfSource ∧
      (on_before_block_translate cpu s).sawWriteOfSink = s.sawWriteOfSink ∧
      (on_before_block_translate cpu s).dependency = s.dependency := by
  unfold on_before_block_translate
  dsimp only
  split <;> exact ⟨rfl, rfl, rfl, rfl, rfl⟩

theorem connect_fields (cpu : CPUState) (arguments : Nat → Nat) (addr : sockaddr) (s : State)
    (h : addr.sa_family = AF_INET ∨ addr.sa_family = AF_INET6) :
    (on_socketcall_connect_return cpu arguments addr s).targets =
        Function.update s.targets (cpu.asid, arguments 0)
          (some { ip := addr.ntop, port := addr.sin_port }) ∧
      (on_socketcall_connect_return cpu arguments addr s).dependency_network.source =
        s.dependency_network.source ∧
      (on_socketcall_connect_return cpu arguments addr s).dependency_network.sink =
        s.dependency_network.sink ∧
      (on_socketcall_connect_return cpu arguments addr s).sawReadOfSource = s.sawReadOfSource ∧
      (on_socketcall_connect_return cpu arguments addr s).sawWriteOfSink = s.sawWriteOfSink ∧
      (on_socketcall_connect_return cpu arguments addr s).dependency = s.dependency ∧
      (on_socketcall_connect_return cpu arguments addr s).taint2 = s.taint2 := by
  unfold on_socketcall_connect_return
  dsimp only
  rw [if_pos h]
  split
  · exact ⟨rfl, rfl, rfl, rfl, rfl, rfl, rfl⟩
  · split <;> exact ⟨rfl, rfl, rfl, rfl, rfl, rfl, rfl⟩

theorem recv_not_source (cpu : CPUState) (arguments : Nat → Nat) (s : State)
    (target : Dependency_Network_Target)
    (hl : s.targets (cpu.asid, arguments 0) = some target)
    (hs : target.eq s.dependency_network.source = false) :
    on_socketcall_recv_return cpu arguments s = s := by
  unfold on_socketcall_recv_return
  dsimp only
  rw [hl]
  dsimp only
  rw [hs]
  rfl

theorem send_not_sink (cpu : CPUState) (arguments : Nat → Nat) (s : State)
    (target : Dependency_Network_Target)
    (hl : s.targets (cpu.asid, arguments 0) = some target)
    (hs : target.eq s.dependency_network.sink = false) :
    on_socketcall_send_return cpu arguments s = s := by
  unfold on_socketcall_send_return
  dsimp only
  rw [hl]
  dsimp only
  rw [hs]
  rfl

theorem connect_neither_run (s0 : State) (cpu1 cpu2 cpu3 cpu4 cpu5 : CPUState)
    (args1 args3 args4 args5 : Nat → Nat) (a1 a4 : sockaddr)
    (h1 : a1.sa_family = AF_INET ∨ a1.sa_family = AF_INET6)
    (h4 : a4.sa_family = AF_INET ∨ a4.sa_family = AF_INET6)
    (n1 : Dependency_Network_Target.eq { ip := a1.ntop, port := a1.sin_port }
      s0.dependency_network.source = false)
    (n4 : Dependency_Network_Target.eq { ip := a4.ntop, port := a4.sin_port }
      s0.dependency_network.sink = false)
    (k3 : (cpu3.asid, args3 0) = (cpu1.asid, args1 0))
    (k5 : (cpu5.asid, args5 0) = (cpu4.asid, args4 0)) :
    uninit_plugin
        (on_socketcall_send_return cpu5 args5
          (on_socketcall_connect_return cpu4 args4 a4
            (on_socketcall_recv_return cpu3 args3
              (on_before_block_translate cpu2
                (on_socketcall_connect_return cpu1 args1 a1 s0))))) =
      uninit_plugin s0 := by
  obtain ⟨t1, src1, snk1, r1, w1, d1, -⟩ := connect_fields cpu1 args1 a1 s0 h1
  generalize on_socketcall_connect_return cpu1 args1 a1 s0 = s1 at *
  obtain ⟨cfg2, t2, r2, w2, d2⟩ := on_before_block_translate_frame cpu2 s1
  generalize on_before_block_translate cpu2 s1 = s2 at *
  have l3 : s2.targets (cpu3.asid, args3 0) = some { ip := a1.ntop, port := a1.sin_port } := by
    rw [t2, t1, k3]
    exact Function.update_same _ _ _
  have e3 : on_socketcall_recv_return cpu3 args3 s2 = s2 :=
    recv_not_source cpu3 args3 s2 _ l3 (by rw [cfg2, src1]; exact n1)
  rw [e3]
  obtain ⟨t4, -, snk4, r4, w4, d4, -⟩ := connect_fields cpu4 args4 a4 s2 h4
  generalize on_socketcall_connect_return cpu4 args4 a4 s2 = s4 at *
  have l5 : s4.targets (cpu5.asid, args5 0) = some { ip := a4.ntop, port := a4.sin_port } := by
    rw [t4, k5]
    exact Function.update_same _ _ _
  have e5 : on_socketcall_send_return cpu5 args5 s4 = s4 :=
    send_not_sink cpu5 args5 s4 _ l5 (by rw [snk4, cfg2, snk1]; exact n4)
  rw [e5]
  simp only [uninit_plugin, r4, w4, d4, r2, w2, d2, r1, w1, d1]

theorem labelBufferContents_eq_tracker (cpu : CPUState) (vAddr length : Nat) (t : Taint2) :
    labelBufferContents cpu vAddr length t =
      (dependency_tracker.labelBufferContents cpu vAddr length 1 t).2 := by
  unfold labelBufferContents dependency_tracker.labelBufferContents
  split <;> rfl

theorem query_count_loop (cpu : CPUState) (vAddr : Nat) (t : Taint2) (n : Nat) :
    (List.range n).foldl
      (fun (bytesWithTaint : Nat) (i : Nat) =>
        let pAddr := cpu.virt_to_phys (vaddr_add vAddr i)
        if pAddr = HWADDR_INVALID then bytesWithTaint
        else
          let cardinality := taint2_query_ram t pAddr
          if cardinality > 0 then bytesWithTaint + 1 else bytesWithTaint)
      0 =
      ((Finset.range n).filter
        (fun i => translates cpu vAddr i ∧ 0 < taint2_query_ram t (phys cpu vAddr i))).card := by
  induction n with
  | zero => simp
  | succ n ih =>
    simp only [List.range_succ, List.foldl_append, List.foldl_cons, List.foldl_nil]
    rw [ih, Finset.range_succ, Finset.filter_insert]
    by_cases h : cpu.virt_to_phys (vaddr_add vAddr n) = HWADDR_INVALID
    · have hn : ¬ translates cpu vAddr n := fun ht => ht h
      simp [h, hn]
    · have hy : translates cpu vAddr n := h
      by_cases hc : 0 < taint2_query_ram t (phys cpu vAddr n)
      · have hc2 : taint2_query_ram t (cpu.virt_to_phys (vaddr_add vAddr n)) > 0 := hc
        simp [h, hy, hc, hc2]
      · have hc2 : ¬ taint2_query_ram t (cpu.virt_to_phys (vaddr_add vAddr n)) > 0 := hc
        simp only [h, if_false, hc2, hy, hc, and_false, and_true]

theorem queryBufferContents_count (cpu : CPUState) (vAddr length : Nat) (t : Taint2)
    (h : taint2_enabled t = true) :
    queryBufferContents cpu vAddr length t =
      (((Finset.range length).filter
        (fun i => translates cpu vAddr i ∧ 0 < taint2_query_ram t (phys cpu vAddr i))).card :
        Int) := by
  simp only [queryBufferContents, h]
  rw [← query_count_loop]
  rfl

theorem queryBufferContents_pos (cpu : CPUState) (vAddr length : Nat) (t : Taint2)
    (h : taint2_enabled t = true) (i : Nat) (hi : i < length) (ht : translates cpu vAddr i)
    (hl : 0 < taint2_query_ram t (phys cpu vAddr i)) :
    queryBufferContents cpu vAddr length t > 0 := by
  rw [queryBufferContents_count cpu vAddr length t h]
  have : 0 < ((Finset.range length).filter
      (fun i => translates cpu vAddr i ∧ 0 < taint2_query_ram t (phys cpu vAddr i))).card :=
    Finset.card_pos.mpr ⟨i, Finset.mem_filter.mpr ⟨Finset.mem_range.mpr hi, ht, hl⟩⟩
  exact_mod_cast this

theorem recv_source (cpu : CPUState) (arguments : Nat → Nat) (s : State)
    (target : Dependency_Network_Target)
    (hl : s.targets (cpu.asid, arguments 0) = some target)
    (hs : target.eq s.dependency_network.source = true) :
    on_socketcall_recv_return cpu arguments s =
      { s with
        sawReadOfSource := true
        taint2 := labelBufferContents cpu (arguments 1) (arguments 2) s.taint2 } := by
  unfold on_socketcall_recv_return
  dsimp only
  rw [hl]
  dsimp only
  rw [hs]
  rfl

theorem send_sink (cpu : CPUState) (arguments : Nat → Nat) (s : State)
    (target : Dependency_Network_Target)
    (hl : s.targets (cpu.asid, arguments 0) = some target)
    (hs : target.eq s.dependency_network.sink = true) :
    on_socketcall_send_return cpu arguments s =
      { s with
        sawWriteOfSink := true
        dependency :=
          if queryBufferContents cpu (arguments 1) (arguments 2) s.taint2 > 0 then true
          else s.dependency } := by
  unfold on_socketcall_send_return
  dsimp only
  rw [hl]
  dsimp only
  rw [hs]
  rfl

theorem connect_arms (cpu : CPUState) (arguments : Nat → Nat) (addr : sockaddr) (s : State)
    (h : addr.sa_family = AF_INET ∨ addr.sa_family = AF_INET6)
    (hs : Dependency_Network_Target.eq { ip := addr.ntop, port := addr.sin_port }
      s.dependency_network.source = true) :
    (on_socketcall_connect_return cpu arguments addr s).dependency_network.enableTaintAt =
      cpu.instr_count := by
  unfold on_socketcall_connect_return
  dsimp only
  rw [if_pos h, if_pos hs]

theorem on_before_block_translate_fires (cpu : CPUState) (s : State)
    (hd : taint2_enabled s.taint2 = false)
    (hgt : to_int cpu.instr_count > s.dependency_network.enableTaintAt) :
    on_before_block_translate cpu s = { s with taint2 := taint2_enable_taint s.taint2 } := by
  unfold on_before_block_translate
  dsimp only
  rw [if_pos ⟨hd, hgt⟩]

theorem label_then_count_pos (cpu cpu' : CPUState) (vAddr length : Nat) (t : Taint2)
    (he : taint2_enabled t = true) (hv : cpu'.virt_to_phys = cpu.virt_to_phys)
    (i : Nat) (hi : i < length) (ht : translates cpu vAddr i) :
    queryBufferContents cpu' vAddr length (labelBufferContents cpu vAddr length t) > 0 := by
  have hl := dependency_tracker.labelBufferContents_on cpu vAddr length 1 t he
  rw [labelBufferContents_eq_tracker]
  have ht' : translates cpu' vAddr i := by
    unfold translates at ht ⊢
    rw [hv]
    exact ht
  have hp : phys cpu' vAddr i = phys cpu vAddr i := by
    unfold phys
    rw [hv]
  apply queryBufferContents_pos cpu' vAddr length _ (hl.2.2.1.trans he) i hi ht'
  rw [hp]
  unfold taint2_query_ram
  rw [hl.2.1 (phys cpu vAddr i), if_pos ⟨i, hi, ht, rfl⟩]
  exact Finset.card_pos.mpr ⟨1, Finset.mem_insert_self _ _⟩

theorem connect_match_run (s0 : State) (cpu1 cpu2 cpu3 cpu4 cpu5 : CPUState)
    (args1 args3 args4 args5 : Nat → Nat) (a1 a4 : sockaddr)
    (h1 : a1.sa_family = AF_INET ∨ a1.sa_family = AF_INET6)
    (h4 : a4.sa_family = AF_INET ∨ a4.sa_family = AF_INET6)
    (m1 : Dependency_Network_Target.eq { ip := a1.ntop, port := a1.sin_port }
      s0.dependency_network.source = true)
    (m4 : Dependency_Network_Target.eq { ip := a4.ntop, port := a4.sin_port }
      s0.dependency_network.sink = true)
    (hdis : taint2_enabled s0.taint2 = false)
    (hgt : to_int cpu2.instr_count > cpu1.instr_count)
    (k3 : (cpu3.asid, args3 0) = (cpu1.asid, args1 0))
    (k5 : (cpu5.asid, args5 0) = (cpu4.asid, args4 0))
    (hbuf : args5 1 = args3 1) (hlen : args5 2 = args3 2)
    (hv : cpu5.virt_to_phys = cpu3.virt_to_phys)
    (i : Nat) (hi : i < args3 2) (ht : translates cpu3 (args3 1) i) :
    uninit_plugin
        (on_socketcall_send_return cpu5 args5
          (on_socketcall_connect_return cpu4 args4 a4
            (on_socketcall_recv_return cpu3 args3
              (on_before_block_translate cpu2
                (on_socketcall_connect_return cpu1 args1 a1 s0))))) =
      (true, true, true) := by
  obtain ⟨t1, src1, snk1, -, -, -, x1⟩ := connect_fields cpu1 args1 a1 s0 h1
  have arm1 := connect_arms cpu1 args1 a1 s0 h1 m1
  generalize on_socketcall_connect_return cpu1 args1 a1 s0 = s1 at *
  have f2 := on_before_block_translate_fires cpu2 s1 (by rw [x1]; exact hdis)
    (by rw [arm1]; exact hgt)
  rw [f2]
  have l3 : s1.targets (cpu3.asid, args3 0) = some { ip := a1.ntop, port := a1.sin_port } := by
    rw [t1, k3]
    exact Function.update_same _ _ _
  have m3 : Dependency_Network_Target.eq { ip := a1.ntop, port := a1.sin_port }
      s1.dependency_network.source = true := by
    rw [src1]; exact m1
  rw [recv_source cpu3 args3 { s1 with taint2 := taint2_enable_taint s1.taint2 } _ l3 m3]
  obtain ⟨t4, -, snk4, r4, -, -, x4⟩ := connect_fields cpu4 args4 a4
    { s1 with
      sawReadOfSource := true
      taint2 := labelBufferContents cpu3 (args3 1) (args3 2) (taint2_enable_taint s1.taint2) } h4
  generalize on_socketcall_connect_return cpu4 args4 a4 _ = s4 at *
  dsimp only at t4 snk4 r4 x4
  have l5 : s4.targets (cpu5.asid, args5 0) = some { ip := a4.ntop, port := a4.sin_port } := by
    rw [t4, k5]
    exact Function.update_same _ _ _
  have m5 : Dependency_Network_Target.eq { ip := a4.ntop, port := a4.sin_port }
      s4.dependency_network.sink = true := by
    rw [snk4, snk1]; exact m4
  rw [send_sink cpu5 args5 s4 _ l5 m5]
  have hq : queryBufferContents cpu5 (args5 1) (args5 2) s4.taint2 > 0 := by
    rw [x4, hbuf, hlen]
    exact label_then_count_pos cpu3 cpu5 (args3 1) (args3 2) _ rfl hv i hi ht
  simp only [uninit_plugin, hq, if_true, r4]

end dependency_network

/-- C10, the code at the scenario. The socket address that `connect` is given
for `1.2.3.4` port 80 carries the port in network byte order, so the handler,
which copies `sin_port` as it stands, stores port `20480`; likewise `47873` for
port 443. Neither stored target equals the configured source or sink, and the
summary of scenario A, whatever the instruction counts, the translation, the
initial threshold, the initial table and the engine, is false, false, false. -/
theorem scenario_A_summary (c instr : Int) (v2p : Nat → Nat) (enableTaintAt : Int)
    (targets : Nat × Nat → Option dependency_network.Dependency_Network_Target)
    (taint2 : Taint2) :
    (sockaddr_in "1.2.3.4" 80).sin_port = 20480 ∧
      (sockaddr_in "5.6.7.8" 443).sin_port = 47873 ∧
      dependency_network.uninit_plugin
          (dependency_network.run
            (dependency_network.scenario_state enableTaintAt targets taint2)
            (dependency_network.scenario_events (sockaddr_in "1.2.3.4" 80)
              (sockaddr_in "5.6.7.8" 443) c instr v2p)) =
        (false, false, false) := by
  refine ⟨by decide, by decide, ?_⟩
  simp only [dependency_network.run, dependency_network.scenario_events, List.foldl_cons,
    List.foldl_nil, dependency_network.network_step_connect, dependency_network.step_recv,
    dependency_network.step_send, dependency_network.step_translate]
  exact dependency_network.connect_neither_run _ _ _ _ _ _ _ _ _ _ _ _ (Or.inl rfl) (Or.inl rfl)
    (by decide : dependency_network.Dependency_Network_Target.eq
      { ip := "1.2.3.4", port := 20480 } { ip := "1.2.3.4", port := 80 } = false)
    (by decide : dependency_network.Dependency_Network_Target.eq
      { ip := "5.6.7.8", port := 47873 } { ip := "5.6.7.8", port := 443 } = false)
    rfl rfl

/-- Scenario A holds on the code once the port fields, as the handler reads
them, are the configured port numbers `80` and `443`: with taint disabled at
the start, a sample at which the local `int instr` is above the instruction
count of the first connect and every byte of the buffer translating, the
summary is true, true, true. -/
theorem scenario_A_when_port_fields_match (c instr : Int) (v2p : Nat → Nat)
    (enableTaintAt : Int)
    (targets : Nat × Nat → Option dependency_network.Dependency_Network_Target)
    (taint2 : Taint2) (hoff : taint2_enabled taint2 = false) (hgt : to_int instr > c)
    (htr : ∀ i, i < 16 → v2p (vaddr_add 4096 i) ≠ HWADDR_INVALID) :
    dependency_network.uninit_plugin
        (dependency_network.run
          (dependency_network.scenario_state enableTaintAt targets taint2)
          (dependency_network.scenario_events (inet_addr_of "1.2.3.4" 80)
            (inet_addr_of "5.6.7.8" 443) c instr v2p)) =
      (true, true, true) := by
  simp only [dependency_network.run, dependency_network.scenario_events, List.foldl_cons,
    List.foldl_nil, dependency_network.network_step_connect, dependency_network.step_recv,
    dependency_network.step_send, dependency_network.step_translate]
  exact dependency_network.connect_match_run _ _ _ _ _ _ _ _ _ _ _ _ (Or.inl rfl) (Or.inl rfl)
    (by decide : dependency_network.Dependency_Network_Target.eq
      { ip := "1.2.3.4", port := 80 } { ip := "1.2.3.4", port := 80 } = true)
    (by decide : dependency_network.Dependency_Network_Target.eq
      { ip := "5.6.7.8", port := 443 } { ip := "5.6.7.8", port := 443 } = true)
    hoff hgt rfl rfl rfl rfl rfl 0 (by decide) (htr 0 (by decide))

/-- Scenario A with the port fields matching, at instruction counts 100 and
101, the identity translation and an engine that is off. -/
theorem scenario_A_when_port_fields_match_witness :
    taint2_enabled taint2_off = false ∧ to_int 101 > 100 ∧
      dependency_network.uninit_plugin
          (dependency_network.run
            (dependency_network.scenario_state 1000 (fun _ => none) taint2_off)
            (dependency_network.scenario_events (inet_addr_of "1.2.3.4" 80)
              (inet_addr_of "5.6.7.8" 443) 100 101 (fun v => v))) =
        (true, true, true) :=
  ⟨rfl, by decide,
    scenario_A_when_port_fields_match 100 101 (fun v => v) 1000 (fun _ => none) taint2_off rfl
      (by decide) (fun i _ =>
        Nat.ne_of_lt (Nat.lt_trans (Nat.mod_lt (4096 + i) (by decide : 0 < 2 ^ 32))
          (by decide : 2 ^ 32 < HWADDR_INVALID)))⟩

/-! ## Equality of targets (C12) -/

/-- C12. Equality of `Dependency_Network_Target` is structural and an
equivalence: `a == b` is true exactly when `a.ip = b.ip` and `a.port = b.port`;
`==` is reflexive, symmetric and transitive; and `a != b` is true exactly when
`a == b` is false. -/
theorem target_equality_is_structural :
    (∀ a b : dependency_network.Dependency_Network_Target,
        a.eq b = true ↔ (a.ip = b.ip ∧ a.port = b.port)) ∧
      (∀ a : dependency_network.Dependency_Network_Target, a.eq a = true) ∧
      (∀ a b : dependency_network.Dependency_Network_Target, a.eq b = true → b.eq a = true) ∧
      (∀ a b c : dependency_network.Dependency_Network_Target,
        a.eq b = true → b.eq c = true → a.eq c = true) ∧
      (∀ a b : dependency_network.Dependency_Network_Target,
        a.ne b = true ↔ a.eq b = false) := by
  have key : ∀ a b : dependency_network.Dependency_Network_Target,
      a.eq b = true ↔ (a.ip = b.ip ∧ a.port = b.port) := by
    intro a b
    simp [dependency_network.Dependency_Network_Target.eq]
  refine ⟨key, ?_, ?_, ?_, ?_⟩
  · intro a
    exact (key a a).mpr ⟨rfl, rfl⟩
  · intro a b h
    obtain ⟨h1, h2⟩ := (key a b).mp h
    exact (key b a).mpr ⟨h1.symm, h2.symm⟩
  · intro a b c hab hbc
    obtain ⟨h1, h2⟩ := (key a b).mp hab
    obtain ⟨h3, h4⟩ := (key b c).mp hbc
    exact (key a c).mpr ⟨h1.trans h3, h2.trans h4⟩
  · intro a b
    by_cases hi : a.ip = b.ip <;> by_cases hp : a.port = b.port <;>
      simp [dependency_network.Dependency_Network_Target.eq,
        dependency_network.Dependency_Network_Target.ne, hi, hp]

/-! ## The port of a connection (C13) -/

theorem sockaddr_in_port (ip : String) (P : Nat) :
    (sockaddr_in ip P).sin_port = P / 256 % 256 + 256 * (P % 256) :=
  rfl

theorem swapped_port_eq_iff (P : Nat) (hP : P < 65536) :
    P / 256 % 256 + 256 * (P % 256) = P ↔ P / 256 = P % 256 := by
  omega

/-- C13, the code at a connection to port 80. The socket address that `connect`
is given for port `P` holds `P` in network byte order; both connect handlers
copy the port field as the little-endian host reads it, so the target stored
under the key has the port with its two bytes swapped: for the IPv4 socket
address of address `ip` and port `P`, and for every socket address of family
`AF_INET` or `AF_INET6` whose two port bytes hold `P` in network byte order,
whatever text `inet_ntop` gives for its address. For port 80 the stored port is
`20480`: the stored target does not compare equal to a source configured as the
same address with port 80, in `dependency_network` (`operator==`) nor in
`dependency_tracker` (`isSource`). -/
theorem connect_stores_port_bytes_swapped (cpu : CPUState) (arguments : Nat → Nat)
    (ip : String) (P : Nat) (sN : dependency_network.State) (sT : dependency_tracker.State) :
    ((dependency_network.step sN
          (cpu, .sys_socketcall_return SYS_CONNECT arguments (sockaddr_in ip P))).targets
          (cpu.asid, arguments 0) =
        some { ip := ip, port := P / 256 % 256 + 256 * (P % 256) } ∧
      (dependency_tracker.step sT
          (cpu, .sys_socketcall_return SYS_CONNECT arguments
            (sockaddr_in ip P))).dependency_tracker.networks (cpu.asid, arguments 0) =
        some { ip := ip, port := P / 256 % 256 + 256 * (P % 256) } ∧
      (∀ addr : sockaddr, (addr.sa_family = AF_INET ∨ addr.sa_family = AF_INET6) →
        addr.sin_port = read_u16_le (port_bytes P).1 (port_bytes P).2 →
        (dependency_network.step sN
            (cpu, .sys_socketcall_return SYS_CONNECT arguments addr)).targets
            (cpu.asid, arguments 0) =
          some { ip := addr.ntop, port := P / 256 % 256 + 256 * (P % 256) } ∧
        (dependency_tracker.step sT
            (cpu, .sys_socketcall_return SYS_CONNECT arguments
              addr)).dependency_tracker.networks (cpu.asid, arguments 0) =
          some { ip := addr.ntop, port := P / 256 % 256 + 256 * (P % 256) })) ∧
    ((dependency_network.step dependency_network.sample_state
          (cpu_at 1 5, .sys_socketcall_return SYS_CONNECT (words 3 0 0)
            (sockaddr_in "1.2.3.4" 80))).targets (1, 3) =
        some { ip := "1.2.3.4", port := 20480 } ∧
      dependency_network.Dependency_Network_Target.eq { ip := "1.2.3.4", port := 20480 }
        dependency_network.sample_state.dependency_network.source = false ∧
      (dependency_tracker.step dependency_tracker.sample_state
          (cpu_at 1 5, .sys_socketcall_return SYS_CONNECT (words 3 0 0)
            (sockaddr_in "1.2.3.4" 80))).dependency_tracker.networks (1, 3) =
        some { ip := "1.2.3.4", port := 20480 } ∧
      dependency_tracker.isSource dependency_tracker.sample_state.dependency_tracker
        (.network { ip := "1.2.3.4", port := 20480 }) = false ∧
      dependency_tracker.isSource dependency_tracker.sample_state.dependency_tracker
        (.network { ip := "1.2.3.4", port := 80 }) = true) := by
  refine ⟨⟨?_, ?_, ?_⟩, by decide, by decide, by decide, by decide, by decide⟩
  · rw [dependency_network.network_step_connect,
      dependency_network.connect_targets _ _ _ _ (Or.inl rfl)]
    exact Function.update_same _ _ _
  · rw [dependency_tracker.tracker_step_connect,
      dependency_tracker.connect_networks _ _ _ _ (Or.inl rfl)]
    exact Function.update_same _ _ _
  · intro addr hfam hport
    constructor
    · rw [dependency_network.network_step_connect,
        dependency_network.connect_targets _ _ _ _ hfam, hport]
      exact Function.update_same _ _ _
    · rw [dependency_tracker.tracker_step_connect,
        dependency_tracker.connect_networks _ _ _ _ hfam, hport]
      exact Function.update_same _ _ _

/-! ## The evidence flags (C11) -/

namespace dependency_network

theorem on_pwrite64_return_evidence (cpu : CPUState) (fd buffer count : Nat) (s : State) :
    (on_pwrite64_return cpu fd buffer count s).sawWriteOfSink =
        (s.sawWriteOfSink || resolvesToSink s cpu.asid fd) ∧
      (on_pwrite64_return cpu fd buffer count s).dependency =
        (s.dependency || (resolvesToSink s cpu.asid fd &&
          decide (queryBufferContents cpu buffer count s.taint2 > 0))) := by
  unfold on_pwrite64_return resolvesToSink
  cases h : s.targets (cpu.asid, fd) with
  | none => simp
  | some target =>
    dsimp only
    cases ht : target.eq s.dependency_network.sink
    · simp
    · by_cases hq : queryBufferContents cpu buffer count s.taint2 > 0
      · simp [hq]
      · simp [hq]

theorem on_socketcall_send_return_evidence (cpu : CPUState) (arguments : Nat → Nat)
    (s : State) :
    (on_socketcall_send_return cpu arguments s).sawWriteOfSink =
        (s.sawWriteOfSink || resolvesToSink s cpu.asid (arguments 0)) ∧
      (on_socketcall_send_return cpu arguments s).dependency =
        (s.dependency || (resolvesToSink s cpu.asid (arguments 0) &&
          decide (queryBufferContents cpu (arguments 1) (arguments 2) s.taint2 > 0))) := by
  unfold on_socketcall_send_return resolvesToSink
  dsimp only
  cases h : s.targets (cpu.asid, arguments 0) with
  | none => simp
  | some target =>
    dsimp only
    cases ht : target.eq s.dependency_network.sink
    · simp
    · by_cases hq : queryBufferContents cpu (arguments 1) (arguments 2) s.taint2 > 0
      · simp [hq]
      · simp [hq]

theorem on_pread64_return_evidence (cpu : CPUState) (fd buffer count : Nat) (s : State) :
    (on_pread64_return cpu fd buffer count s).sawWriteOfSink = s.sawWriteOfSink ∧
      (on_pread64_return cpu fd buffer count s).dependency = s.dependency := by
  unfold on_pread64_return
  split
  · exact ⟨rfl, rfl⟩
  · split <;> exact ⟨rfl, rfl⟩

theorem on_socketcall_recv_return_evidence (cpu : CPUState) (arguments : Nat → Nat)
    (s : State) :
    (on_socketcall_recv_return cpu arguments s).sawWriteOfSink = s.sawWriteOfSink ∧
      (on_socketcall_recv_return cpu arguments s).dependency = s.dependency := by
  unfold on_socketcall_recv_return
  dsimp only
  split
  · exact ⟨rfl, rfl⟩
  · split <;> exact ⟨rfl, rfl⟩

theorem on_socketcall_connect_return_evidence (cpu : CPUState) (arguments : Nat → Nat)
    (addr : sockaddr) (s : State) :
    (on_socketcall_connect_return cpu arguments addr s).sawWriteOfSink = s.sawWriteOfSink ∧
      (on_socketcall_connect_return cpu arguments addr s).dependency = s.dependency := by
  unfold on_socketcall_connect_return
  dsimp only
  split
  · split
    · exact ⟨rfl, rfl⟩
    · split <;> exact ⟨rfl, rfl⟩
  · exact ⟨rfl, rfl⟩

theorem step_evidence (s : State) (ev : CPUState × Event) :
    (step s ev).sawWriteOfSink = (s.sawWriteOfSink || isSinkEvent s ev) ∧
      (step s ev).dependency = (s.dependency || isTaintedSinkEvent s ev) := by
  obtain ⟨cpu, e⟩ := ev
  cases e with
  | before_block_translate =>
    have h := on_before_block_translate_frame cpu s
    simp [step, isSinkEvent, isTaintedSinkEvent, sinkWrite, h.2.2.2.1, h.2.2.2.2]
  | sys_socketcall_return call arguments addr =>
    simp only [step, on_socketcall_return, isSinkEvent, isTaintedSinkEvent, sinkWrite]
    by_cases hc : call = SYS_CONNECT
    · have h := on_socketcall_connect_return_evidence cpu arguments addr s
      have hn : ¬ (call = SYS_SEND ∨ call = SYS_SENDTO) := by
        rw [hc]; decide
      rw [if_pos hc, if_neg hn, h.1, h.2]
      simp
    · by_cases hs : call = SYS_SEND ∨ call = SYS_SENDTO
      · have h := on_socketcall_send_return_evidence cpu arguments s
        rw [if_neg hc, if_pos hs, if_pos hs, h.1, h.2]
        cases resolvesToSink s cpu.asid (arguments 0) <;> simp
      · have h := on_socketcall_recv_return_evidence cpu arguments s
        rw [if_neg hc, if_neg hs, if_neg hs]
        split <;> simp [h.1, h.2]
  | sys_pread64_return fd buffer count =>
    have h := on_pread64_return_evidence cpu fd buffer count s
    simp [step, isSinkEvent, isTaintedSinkEvent, sinkWrite, h.1, h.2]
  | sys_pwrite64_return fd buffer count =>
    have h := on_pwrite64_return_evidence cpu fd buffer count s
    simp only [step, isSinkEvent, isTaintedSinkEvent, sinkWrite, h.1, h.2]
    cases resolvesToSink s cpu.asid fd <;> simp
  | sys_read_return fd buffer count =>
    have h := on_pread64_return_evidence cpu fd buffer count s
    simp [step, on_read_return, isSinkEvent, isTaintedSinkEvent, sinkWrite, h.1, h.2]
  | sys_write_return fd buffer count =>
    have h := on_pwrite64_return_evidence cpu fd buffer count s
    simp only [step, on_write_return, isSinkEvent, isTaintedSinkEvent, sinkWrite, h.1, h.2]
    cases resolvesToSink s cpu.asid fd <;> simp

theorem queryBufferContents_pos_enabled (cpu : CPUState) (vAddr length : Nat) (t : Taint2)
    (h : queryBufferContents cpu vAddr length t > 0) : taint2_enabled t = true := by
  cases he : taint2_enabled t with
  | true => rfl
  | false =>
    exfalso
    simp [queryBufferContents, he] at h

theorem tainted_sink_event (s : State) (ev : CPUState × Event)
    (h : isTaintedSinkEvent s ev = true) :
    isSinkEvent s ev = true ∧ taint2_enabled s.taint2 = true := by
  unfold isTaintedSinkEvent at h
  unfold isSinkEvent
  cases hw : sinkWrite s ev with
  | none => rw [hw] at h; exact absurd h (by simp)
  | some bc =>
    rw [hw] at h
    exact ⟨rfl, queryBufferContents_pos_enabled ev.1 bc.1 bc.2 s.taint2 (of_decide_eq_true h)⟩

theorem seq_true_iff (F x : Nat → Bool) (h0 : F 0 = false)
    (hF : ∀ i, F (i + 1) = (F i || x i)) (n : Nat) :
    F n = true ↔ ∃ j, j < n ∧ x j = true := by
  have h := gate_enabled_iff F x h0 hF n
  constructor
  · intro hn
    by_contra hc
    have : F n = false := h.mpr (fun j hj => by
      cases hx : x j with
      | false => rfl
      | true => exact absurd ⟨j, hj, hx⟩ hc)
    rw [hn] at this
    exact Bool.noConfusion this
  · rintro ⟨j, hj, hx⟩
    cases hn : F n with
    | true => rfl
    | false =>
      have := h.mp hn j hj
      rw [hx] at this
      exact Bool.noConfusion this

theorem sawWriteOfSink_succ (s : State) (evs : List (CPUState × Event)) (i : Nat) :
    (stateAt s evs (i + 1)).sawWriteOfSink =
      ((stateAt s evs i).sawWriteOfSink || sinkEventAt s evs i) := by
  cases h : evs[i]? with
  | none => simp only [network_stateAt_succ_none s evs i h, sinkEventAt, h]; simp
  | some ev =>
    simp only [network_stateAt_succ_some s evs i ev h, sinkEventAt, h]
    exact (step_evidence _ ev).1

theorem dependency_succ (s : State) (evs : List (CPUState × Event)) (i : Nat) :
    (stateAt s evs (i + 1)).dependency =
      ((stateAt s evs i).dependency || taintedSinkEventAt s evs i) := by
  cases h : evs[i]? with
  | none => simp only [network_stateAt_succ_none s evs i h, taintedSinkEventAt, h]; simp
  | some ev =>
    simp only [network_stateAt_succ_some s evs i ev h, taintedSinkEventAt, h]
    exact (step_evidence _ ev).2

theorem stateAt_length (s : State) (evs : List (CPUState × Event)) :
    stateAt s evs evs.length = run s evs := by
  unfold stateAt
  rw [List.take_length]

theorem sinkEventAt_lt (s : State) (evs : List (CPUState × Event)) (i : Nat)
    (h : sinkEventAt s evs i = true) : i < evs.length := by
  by_contra hc
  have hn : evs[i]? = none := List.getElem?_eq_none (by omega)
  simp [sinkEventAt, hn] at h

theorem taintedSinkEventAt_lt (s : State) (evs : List (CPUState × Event)) (i : Nat)
    (h : taintedSinkEventAt s evs i = true) : i < evs.length := by
  by_contra hc
  have hn : evs[i]? = none := List.getElem?_eq_none (by omega)
  simp [taintedSinkEventAt, hn] at h

theorem taintedSinkEventAt_sink (s : State) (evs : List (CPUState × Event)) (i : Nat)
    (h : taintedSinkEventAt s evs i = true) :
    sinkEventAt s evs i = true ∧ taint2_enabled (stateAt s evs i).taint2 = true := by
  unfold taintedSinkEventAt at h
  unfold sinkEventAt
  cases he : evs[i]? with
  | none => rw [he] at h; exact absurd h (by simp)
  | some ev =>
    rw [he] at h
    exact tainted_sink_event _ ev h

end dependency_network

/-- C11. In `dependency_network`, along every sequence of callbacks that starts
with `dependency` and `sawWriteOfSink` false: a flag that is true at one point
of the run is true at every later point; `sawWriteOfSink` is true at the end
exactly when some callback was a write, pwrite64, send or sendto return on a key
that resolved, at that moment, to a target equal to the configured sink;
`dependency` is true at the end exactly when at some such sink event
`queryBufferContents` counted at least one tainted byte, which needs the taint
engine enabled at that event; a callback that is no sink event, a send whose
key resolves to a target other than the sink among them, leaves both flags as
they were; and `dependency` at the end implies `sawWriteOfSink` at the end. -/
theorem evidence_flags (s : dependency_network.State)
    (evs : List (CPUState × dependency_network.Event))
    (hd : s.dependency = false) (hw : s.sawWriteOfSink = false) :
    (∀ i j, i ≤ j → (dependency_network.stateAt s evs i).sawWriteOfSink = true →
        (dependency_network.stateAt s evs j).sawWriteOfSink = true) ∧
      (∀ i j, i ≤ j → (dependency_network.stateAt s evs i).dependency = true →
        (dependency_network.stateAt s evs j).dependency = true) ∧
      ((dependency_network.run s evs).sawWriteOfSink = true ↔
        ∃ i, dependency_network.sinkEventAt s evs i = true) ∧
      ((dependency_network.run s evs).dependency = true ↔
        ∃ i, dependency_network.taintedSinkEventAt s evs i = true) ∧
      (∀ i, dependency_network.taintedSinkEventAt s evs i = true →
        dependency_network.sinkEventAt s evs i = true ∧
          taint2_enabled (dependency_network.stateAt s evs i).taint2 = true) ∧
      (∀ (s1 : dependency_network.State) (ev : CPUState × dependency_network.Event),
        dependency_network.isSinkEvent s1 ev = false →
          (dependency_network.step s1 ev).sawWriteOfSink = s1.sawWriteOfSink ∧
            (dependency_network.step s1 ev).dependency = s1.dependency) ∧
      (∀ (s1 : dependency_network.State) (cpu : CPUState) (arguments : Nat → Nat)
          (addr : sockaddr) (target : dependency_network.Dependency_Network_Target),
        s1.targets (cpu.asid, arguments 0) = some target →
          target.eq s1.dependency_network.sink = false →
            dependency_network.step s1 (cpu, .sys_socketcall_return SYS_SEND arguments addr) =
              s1) ∧
      ((dependency_network.run s evs).dependency = true →
        (dependency_network.run s evs).sawWriteOfSink = true) := by
  have hW0 : (dependency_network.stateAt s evs 0).sawWriteOfSink = false := by
    simpa [dependency_network.stateAt, dependency_network.run] using hw
  have hD0 : (dependency_network.stateAt s evs 0).dependency = false := by
    simpa [dependency_network.stateAt, dependency_network.run] using hd
  have hWend : (dependency_network.run s evs).sawWriteOfSink = true ↔
      ∃ i, dependency_network.sinkEventAt s evs i = true := by
    rw [← dependency_network.stateAt_length,
      dependency_network.seq_true_iff (fun n => (dependency_network.stateAt s evs n).sawWriteOfSink)
        (dependency_network.sinkEventAt s evs) hW0
        (dependency_network.sawWriteOfSink_succ s evs) evs.length]
    constructor
    · rintro ⟨j, _, hx⟩
      exact ⟨j, hx⟩
    · rintro ⟨j, hx⟩
      exact ⟨j, dependency_network.sinkEventAt_lt s evs j hx, hx⟩
  have hDend : (dependency_network.run s evs).dependency = true ↔
      ∃ i, dependency_network.taintedSinkEventAt s evs i = true := by
    rw [← dependency_network.stateAt_length,
      dependency_network.seq_true_iff (fun n => (dependency_network.stateAt s evs n).dependency)
        (dependency_network.taintedSinkEventAt s evs) hD0
        (dependency_network.dependency_succ s evs) evs.length]
    constructor
    · rintro ⟨j, _, hx⟩
      exact ⟨j, hx⟩
    · rintro ⟨j, hx⟩
      exact ⟨j, dependency_network.taintedSinkEventAt_lt s evs j hx, hx⟩
  refine ⟨?_, ?_, hWend, hDend, ?_, ?_, ?_, ?_⟩
  · intro i j hij hi
    exact gate_enabled_mono (fun n => (dependency_network.stateAt s evs n).sawWriteOfSink)
      (dependency_network.sinkEventAt s evs) (dependency_network.sawWriteOfSink_succ s evs)
      i j hij hi
  · intro i j hij hi
    exact gate_enabled_mono (fun n => (dependency_network.stateAt s evs n).dependency)
      (dependency_network.taintedSinkEventAt s evs) (dependency_network.dependency_succ s evs)
      i j hij hi
  · intro i hi
    exact dependency_network.taintedSinkEventAt_sink s evs i hi
  · intro s1 ev hn
    have h := dependency_network.step_evidence s1 ev
    have hn2 : dependency_network.isTaintedSinkEvent s1 ev = false := by
      cases ht : dependency_network.isTaintedSinkEvent s1 ev with
      | false => rfl
      | true =>
        have := (dependency_network.tainted_sink_event s1 ev ht).1
        rw [hn] at this
        exact Bool.noConfusion this
    rw [h.1, h.2, hn, hn2]
    simp
  · intro s1 cpu arguments addr target hl ht
    rw [dependency_network.step_send]
    exact dependency_network.send_not_sink cpu arguments s1 target hl ht
  · intro hdep
    obtain ⟨i, hi⟩ := hDend.mp hdep
    exact hWend.mpr ⟨i, (dependency_network.taintedSinkEventAt_sink s evs i hi).1⟩

/-- C11, at the sample run with a data flow: the send on handle 3 (callback 4)
is no sink event and the flags stay false after it, the send on handle 4
(callback 5) is a sink event in whose buffer tainted bytes are counted, and
both flags are true at the end. -/
theorem evidence_flags_witness :
    dependency_network.sample_state.dependency = false ∧
      dependency_network.sample_state.sawWriteOfSink = false ∧
      ((dependency_network.run dependency_network.sample_state
            dependency_network.flow_events).dependency = true ↔
        ∃ i, dependency_network.taintedSinkEventAt dependency_network.sample_state
          dependency_network.flow_events i = true) ∧
      dependency_network.sinkEventAt dependency_network.sample_state
        dependency_network.flow_events 4 = false ∧
      (dependency_network.stateAt dependency_network.sample_state
        dependency_network.flow_events 5).sawWriteOfSink = false ∧
      dependency_network.taintedSinkEventAt dependency_network.sample_state
        dependency_network.flow_events 5 = true ∧
      (dependency_network.run dependency_network.sample_state
        dependency_network.flow_events).sawWriteOfSink = true ∧
      (dependency_network.run dependency_network.sample_state
        dependency_network.flow_events).dependency = true :=
  ⟨rfl, rfl,
    (evidence_flags dependency_network.sample_state dependency_network.flow_events rfl
      rfl).2.2.2.1,
    by decide, by decide, by decide, by decide, by decide⟩

/-! ## Tokenising a line (C14) -/

namespace dependency_tracker

theorem getline_splitOn (delim : Char) (s token rest : List Char)
    (h : getline delim s = some (token, rest)) :
    rest.length < s.length ∧
      (s.splitOn delim = token :: rest.splitOn delim ∨
        (s.splitOn delim = [token] ∧ rest = [] ∧ token ≠ [])) := by
  induction s generalizing token rest with
  | nil => simp [getline] at h
  | cons c cs ih =>
    unfold getline at h
    by_cases hc : c = delim
    · rw [if_pos hc] at h
      obtain ⟨h1, h2⟩ := Prod.mk.inj (Option.some.inj h)
      subst h1 h2
      refine ⟨by simp, Or.inl ?_⟩
      simp [List.splitOn, List.splitOnP_cons, hc]
    · rw [if_neg hc] at h
      cases hg : getline delim cs with
      | none =>
        rw [hg] at h
        obtain ⟨h1, h2⟩ := Prod.mk.inj (Option.some.inj h)
        subst h1 h2
        have hcs : cs = [] := by
          cases cs with
          | nil => rfl
          | cons d ds =>
            unfold getline at hg
            split at hg
            · exact Option.noConfusion hg
            · split at hg <;> exact Option.noConfusion hg
        subst hcs
        refine ⟨by simp, Or.inr ⟨?_, rfl, by simp⟩⟩
        simp [List.splitOn, List.splitOnP_cons, hc]
      | some tr =>
        obtain ⟨t1, r1⟩ := tr
        rw [hg] at h
        obtain ⟨h1, h2⟩ := Prod.mk.inj (Option.some.inj h)
        subst h1 h2
        obtain ⟨hlen, hsplit⟩ := ih t1 r1 hg
        refine ⟨by simp; omega, ?_⟩
        rcases hsplit with h3 | ⟨h3, h4, _⟩
        · left
          have h3b : List.splitOnP (fun x => x == delim) cs =
              t1 :: List.splitOnP (fun x => x == delim) r1 := h3
          simp [List.splitOn, List.splitOnP_cons, hc, h3b, List.modifyHead]
        · right
          have h3b : List.splitOnP (fun x => x == delim) cs = [t1] := h3
          refine ⟨?_, h4, by simp⟩
          simp [List.splitOn, List.splitOnP_cons, hc, h3b, List.modifyHead]

theorem getline_eq_none (delim : Char) (s : List Char) (h : getline delim s = none) :
    s = [] := by
  cases s with
  | nil => rfl
  | cons d ds =>
    unfold getline at h
    split at h
    · exact Option.noConfusion h
    · split at h <;> exact Option.noConfusion h

theorem comma_fields_nil : comma_fields [] = [] := by
  simp [comma_fields, List.splitOn]

theorem comma_fields_of_split (text token : List Char) (rest : List (List Char))
    (h : text.splitOn ',' = token :: rest) :
    comma_fields text =
      (if token.isEmpty then [] else [String.mk token]) ++
        (rest.filter (fun field => !field.isEmpty)).map String.mk := by
  unfold comma_fields
  rw [h]
  cases token <;> simp [List.filter_cons]

theorem parseCSV_commas_eq (fuel : Nat) (ss : List Char) (tokens : List String)
    (h : ss.length < fuel) : parseCSV_commas fuel ss tokens = tokens ++ comma_fields ss := by
  induction fuel generalizing ss tokens with
  | zero => exact absurd h (Nat.not_lt_zero _)
  | succ fuel ih =>
    unfold parseCSV_commas
    cases hg : getline ',' ss with
    | none =>
      rw [getline_eq_none ',' ss hg, comma_fields_nil]
      simp
    | some tr =>
      obtain ⟨token, ss1⟩ := tr
      obtain ⟨hlen, hsplit⟩ := getline_splitOn ',' ss token ss1 hg
      dsimp only
      rw [ih ss1 _ (by omega)]
      rcases hsplit with h1 | ⟨h1, h2, _⟩
      · rw [comma_fields_of_split ss token _ h1]
        unfold comma_fields
        cases token <;> simp
      · rw [comma_fields_of_split ss token _ h1, h2, comma_fields_nil]
        cases token <;> simp

theorem quoted_tokens_single_nil : quoted_tokens [[]] = [] := by
  simp [quoted_tokens, comma_fields_nil]

theorem parseCSV_quotes_eq (fuel : Nat) (ssLine : List Char) (tokens : List String)
    (h : ssLine.length < fuel) :
    parseCSV_quotes fuel ssLine tokens = tokens ++ quoted_tokens (ssLine.splitOn QUOTE) := by
  induction fuel generalizing ssLine tokens with
  | zero => exact absurd h (Nat.not_lt_zero _)
  | succ fuel ih =>
    unfold parseCSV_quotes
    cases hg : getline QUOTE ssLine with
    | none =>
      rw [getline_eq_none QUOTE ssLine hg]
      simp [List.splitOn, quoted_tokens, comma_fields_nil]
    | some tr =>
      obtain ⟨token, ssLine1⟩ := tr
      obtain ⟨hlen, hsplit⟩ := getline_splitOn QUOTE ssLine token ssLine1 hg
      dsimp only
      rw [parseCSV_commas_eq _ token tokens (Nat.lt_succ_self _)]
      cases hg2 : getline QUOTE ssLine1 with
      | none =>
        have h1 : ssLine1 = [] := getline_eq_none QUOTE ssLine1 hg2
        subst h1
        dsimp only
        have hz : parseCSV_quotes fuel [] (tokens ++ comma_fields token) =
            tokens ++ comma_fields token := by
          cases fuel with
          | zero => rfl
          | succ n => simp [parseCSV_quotes, getline]
        rw [hz]
        rcases hsplit with h2 | ⟨h2, _, _⟩
        · rw [h2]
          simp [List.splitOn, quoted_tokens]
        · rw [h2]
          simp [quoted_tokens]
      | some tr2 =>
        obtain ⟨token2, ssLine2⟩ := tr2
        obtain ⟨hlen2, hsplit2⟩ := getline_splitOn QUOTE ssLine1 token2 ssLine2 hg2
        dsimp only
        rw [ih ssLine2 _ (by omega)]
        have hs1 : ssLine1 ≠ [] := by
          intro hc
          rw [hc] at hg2
          simp [getline] at hg2
        have hsp : ssLine.splitOn QUOTE = token :: ssLine1.splitOn QUOTE := by
          rcases hsplit with h2 | ⟨_, h3, _⟩
          · exact h2
          · exact absurd h3 hs1
        rw [hsp]
        rcases hsplit2 with h4 | ⟨h4, h5, _⟩
        · rw [h4]
          cases token2 <;> simp [quoted_tokens]
        · rw [h4, h5]
          cases token2 <;> simp [quoted_tokens, List.splitOn, comma_fields_nil]

theorem parseCSV_line_eq (line : List Char) :
    parseCSV_line line = quoted_tokens (line.splitOn QUOTE) := by
  unfold parseCSV_line
  rw [parseCSV_quotes_eq _ line [] (Nat.lt_succ_self _)]
  simp

theorem parseCSV_line_nil : parseCSV_line [] = [] := by
  rw [parseCSV_line_eq]
  simp [List.splitOn, quoted_tokens, comma_fields_nil]

theorem parseCSV_lines_eq (fuel : Nat) (ifs : List Char) (lines : List (List String))
    (h : ifs.length < fuel) :
    parseCSV_lines fuel ifs lines =
      lines ++ ((ifs.splitOn NEWLINE).map parseCSV_line).filter (fun row => !row.isEmpty) := by
  induction fuel generalizing ifs lines with
  | zero => exact absurd h (Nat.not_lt_zero _)
  | succ fuel ih =>
    unfold parseCSV_lines
    cases hg : getline NEWLINE ifs with
    | none =>
      rw [getline_eq_none NEWLINE ifs hg]
      simp [List.splitOn, parseCSV_line_nil]
    | some tr =>
      obtain ⟨line, ifs1⟩ := tr
      obtain ⟨hlen, hsplit⟩ := getline_splitOn NEWLINE ifs line ifs1 hg
      dsimp only
      rw [ih ifs1 _ (by omega)]
      rcases hsplit with h1 | ⟨h1, h2, _⟩
      · rw [h1]
        cases hrow : parseCSV_line line <;> simp [List.filter_cons, hrow]
      · rw [h1, h2]
        cases hrow : parseCSV_line line <;>
          simp [List.filter_cons, hrow, List.splitOn, parseCSV_line_nil]

theorem splitOn_no_delim (delim : Char) (text : List Char) (h : delim ∉ text) :
    text.splitOn delim = [text] := by
  unfold List.splitOn
  apply List.splitOnP_eq_single
  intro x hx hp
  have : x = delim := by simpa using hp
  exact h (this ▸ hx)

theorem splitOn_first (delim : Char) (text rest : List Char) (h : delim ∉ text) :
    (text ++ delim :: rest).splitOn delim = text :: rest.splitOn delim := by
  unfold List.splitOn
  apply List.splitOnP_first
  · intro x hx hp
    have : x = delim := by simpa using hp
    exact h (this ▸ hx)
  · simp

theorem mk_ne_empty (text : List Char) (h : text ≠ []) : String.mk text ≠ "" := by
  intro hc
  have : (String.mk text).data = ("" : String).data := congrArg String.data hc
  exact h this

theorem comma_fields_ne_empty (text : List Char) (token : String)
    (h : token ∈ comma_fields text) : token ≠ "" := by
  unfold comma_fields at h
  obtain ⟨field, hf, rfl⟩ := List.mem_map.mp h
  have hne : field ≠ [] := by
    have := (List.mem_filter.mp hf).2
    intro hc
    rw [hc] at this
    simp at this
  exact mk_ne_empty field hne

theorem quoted_tokens_ne_empty (n : Nat) (pieces : List (List Char)) (hn : pieces.length ≤ n)
    (token : String) (h : token ∈ quoted_tokens pieces) : token ≠ "" := by
  induction n generalizing pieces with
  | zero =>
    have : pieces = [] := List.length_eq_zero.mp (Nat.le_zero.mp hn)
    subst this
    simp [quoted_tokens] at h
  | succ n ih =>
    match pieces, hn, h with
    | [], _, h => simp [quoted_tokens] at h
    | [outside], _, h => exact comma_fields_ne_empty outside token h
    | outside :: inside :: rest, hn, h =>
      unfold quoted_tokens at h
      rcases List.mem_append.mp h with h1 | h1
      · rcases List.mem_append.mp h1 with h2 | h2
        · exact comma_fields_ne_empty outside token h2
        · cases inside with
          | nil => simp at h2
          | cons c cs =>
            have : token = String.mk (c :: cs) := by simpa using h2
            rw [this]
            exact mk_ne_empty _ (by simp)
      · exact ih rest (by simp at hn; omega) h1

end dependency_tracker

/-- C14. Tokenisation of one line by `parseCSV`, and the rows of a file.
* A line without quotation mark gives exactly its non-empty comma-separated
  fields, in their order.
* In a line made of a text without quotation mark, a quotation mark, a text
  `inside` without quotation mark, a quotation mark, and any text after it, the
  text `inside` is one single token (none when it is empty), whatever commas it
  holds, between the fields of the text before and the tokens of the text after.
* The line `f,"a,b.txt"` gives the two tokens `f` and `a,b.txt`.
* No token of any line is empty.
* The rows of a file are the token lists of its lines that are not empty, in
  order; a file that cannot be opened gives no row.
* More fuel than the length of the line changes nothing. -/
theorem parseCSV_tokens :
    (∀ line : List Char, dependency_tracker.QUOTE ∉ line →
        dependency_tracker.parseCSV_line line = dependency_tracker.comma_fields line) ∧
      (∀ before inside after : List Char, dependency_tracker.QUOTE ∉ before → dependency_tracker.QUOTE ∉ inside →
        dependency_tracker.parseCSV_line (before ++ dependency_tracker.QUOTE :: (inside ++ dependency_tracker.QUOTE :: after)) =
          dependency_tracker.comma_fields before ++
            (if inside.isEmpty then [] else [String.mk inside]) ++
            dependency_tracker.parseCSV_line after) ∧
      dependency_tracker.parseCSV_line dependency_tracker.sample_line = ["f", "a,b.txt"] ∧
      (∀ (line : List Char) (token : String),
        token ∈ dependency_tracker.parseCSV_line line → token ≠ "") ∧
      (∀ content : List Char,
        dependency_tracker.parseCSV (some content) =
          ((content.splitOn dependency_tracker.NEWLINE).map dependency_tracker.parseCSV_line).filter
            (fun row => !row.isEmpty)) ∧
      dependency_tracker.parseCSV none = [] ∧
      (∀ (line : List Char) (fuel : Nat), line.length < fuel →
        dependency_tracker.parseCSV_quotes fuel line [] =
          dependency_tracker.parseCSV_line line) := by
  refine ⟨?_, ?_, by decide, ?_, ?_, rfl, ?_⟩
  · intro line hq
    rw [dependency_tracker.parseCSV_line_eq, dependency_tracker.splitOn_no_delim dependency_tracker.QUOTE line hq]
    rfl
  · intro before inside after hb hi
    rw [dependency_tracker.parseCSV_line_eq, dependency_tracker.parseCSV_line_eq,
      dependency_tracker.splitOn_first dependency_tracker.QUOTE before _ hb,
      dependency_tracker.splitOn_first dependency_tracker.QUOTE inside _ hi]
    rfl
  · intro line token h
    rw [dependency_tracker.parseCSV_line_eq] at h
    exact dependency_tracker.quoted_tokens_ne_empty _ _ (Nat.le_refl _) token h
  · intro content
    unfold dependency_tracker.parseCSV
    dsimp only
    rw [dependency_tracker.parseCSV_lines_eq _ content [] (Nat.lt_succ_self _)]
    simp
  · intro line fuel h
    rw [dependency_tracker.parseCSV_quotes_eq fuel line [] h,
      dependency_tracker.parseCSV_line_eq]
    simp

/-- The sample file gives two rows: the line of commas and the empty line give
none, and the empty field of the last line gives no token. -/
theorem parseCSV_sample :
    dependency_tracker.parseCSV (some dependency_tracker.sample_file) =
      [["f", "a,b.txt"], ["n", "1.2.3.4", "80"]] := by
  decide

end DependencyPanda
